import Mathlib

/-!
Verification of the conversation-orchestration engine of the
`dynamic-nr1-ws` repository (a WhatsApp psychosocial-questionnaire agent).

The development is a shallow embedding of `src/agent.py` and
`src/utils/safety.py`: Python strings become `List Char`, JSON values a
small `Value` type, the mutable `QuestionnaireStateMachine` object an
explicit `Session` record threaded through pure step functions, and the
external LLM calls oracle parameters (an `Option`/record argument holding
the structured result the service returned, `none` meaning the call
raised).  Message formatting (progress bars, emoji decoration) carries no
control-flow information; outgoing messages are therefore embedded as a
tagged `Reply` type with one constructor per `return` site of the Python
handlers, each carrying the data the message interpolates (in particular
the question that is re-presented).
-/

namespace DynNR1

/-! ## Character/string primitives

`ResponseParser.normalize` in `agent.py` is
`lower().strip()` followed by NFKD decomposition and removal of combining
marks.  `charFold` implements the composite char-level effect of
lower-casing plus diacritic stripping for the Latin repertoire the
program manipulates (Portuguese text). -/

def isSpaceCh (c : Char) : Bool :=
  c == ' ' || c == '\n' || c == '\t' || c == '\r'

def charFold (c : Char) : Char :=
  if 'A' ≤ c ∧ c ≤ 'Z' then Char.ofNat (c.toNat + 32)
  else match c with
  | 'á' | 'à' | 'â' | 'ã' | 'Á' | 'À' | 'Â' | 'Ã' => 'a'
  | 'é' | 'ê' | 'è' | 'É' | 'Ê' | 'È' => 'e'
  | 'í' | 'ì' | 'î' | 'Í' | 'Ì' => 'i'
  | 'ó' | 'ô' | 'õ' | 'ò' | 'Ó' | 'Ô' | 'Õ' => 'o'
  | 'ú' | 'ü' | 'ù' | 'û' | 'Ú' | 'Ü' => 'u'
  | 'ç' | 'Ç' => 'c'
  | _ => c

/-- Python `str.strip()` (for the whitespace characters that occur in the
program's data). -/
def trim (s : List Char) : List Char :=
  ((s.dropWhile isSpaceCh).reverse.dropWhile isSpaceCh).reverse

/-- `ResponseParser.normalize`: lower-case, strip accents, trim. -/
def normalize (s : List Char) : List Char :=
  (trim s).map charFold

/-- `pat` is a prefix of `s` (helper for the Python substring test). -/
def startsWith : List Char → List Char → Bool
  | [], _ => true
  | _ :: _, [] => false
  | p :: ps, c :: cs => p == c && startsWith ps cs

/-- Python's `pat in s`: `pat` occurs contiguously in `s`. -/
def containsSub (pat : List Char) : List Char → Bool
  | [] => startsWith pat []
  | c :: rest => startsWith pat (c :: rest) || containsSub pat rest

/-- Python `s.replace(pat, "")` for a non-empty `pat`: removes the
non-overlapping occurrences of `pat` left to right.  Implemented with a
fuel argument (the length of the text) to make termination structural;
with a non-empty pattern the fuel never runs out. -/
def removeAllGo (pat : List Char) : Nat → List Char → List Char
  | 0, s => s
  | _, [] => []
  | fuel + 1, c :: cs =>
    if startsWith pat (c :: cs) then removeAllGo pat fuel ((c :: cs).drop pat.length)
    else c :: removeAllGo pat fuel cs

def removeAll (pat s : List Char) : List Char :=
  removeAllGo pat s.length s

/-- Python `str.isdigit` restricted to ASCII (the program only ever feeds
it WhatsApp text). -/
def allDigits (s : List Char) : Bool :=
  s.all Char.isDigit

/-- Python `int` on a string of digits. -/
def natOfDigits (s : List Char) : Nat :=
  s.foldl (fun n c => 10 * n + (c.toNat - '0'.toNat)) 0

/-! ## Dynamic values

The LLM answers with JSON, so interpreted answer values are dynamically
typed in the Python code.  `Value` covers the shapes the program
manipulates: strings and JSON numbers (embedded as rationals, which hold
every JSON numeral exactly) and `null`. -/

inductive Value where
  | str (s : List Char)
  | num (q : ℚ)
  | nullv
deriving DecidableEq, Repr

/-- Python truthiness of a `Value` (the code guards interpreted values
with `if result.get('value') and ...`). -/
def pyTruthy : Value → Bool
  | .str s => s ≠ []
  | .num q => q ≠ 0
  | .nullv => false

/-- Integer part of a rational, truncated toward zero — the behaviour of
Python `int()` on a float. -/
def ratTrunc (q : ℚ) : ℤ :=
  if 0 ≤ q then ⌊q⌋ else ⌈q⌉

/-- Python `int(v)` as used in the Likert validation
(`agent.py` success branch): floats are truncated toward zero, strings
must spell an optionally-signed integer, anything else raises
(`none`). -/
def pyInt : Value → Option ℤ
  | .num q => some (ratTrunc q)
  | .str s =>
    match trim s with
    | '-' :: ds => if ds ≠ [] ∧ allDigits ds then some (-(natOfDigits ds : ℤ)) else none
    | '+' :: ds => if ds ≠ [] ∧ allDigits ds then some (natOfDigits ds : ℤ) else none
    | ds => if ds ≠ [] ∧ allDigits ds then some (natOfDigits ds : ℤ) else none
  | .nullv => none

/-- Fractional decimal literal `ds` read as the fraction part of a float. -/
def fracOfDigits (ds : List Char) : ℚ :=
  (natOfDigits ds : ℚ) / ((10 : ℚ) ^ ds.length)

/-- Python `float(v)` as used by `do_assessment` (wrapped there in
`try/except`, hence `Option`): numbers pass through, strings must spell a
simple signed decimal numeral. -/
def pyFloat : Value → Option ℚ
  | .num q => some q
  | .str s => pyFloatStr (trim s)
  | .nullv => none
where
  pyFloatStr : List Char → Option ℚ
  | '-' :: rest => (pyFloatCore rest).map Neg.neg
  | '+' :: rest => pyFloatCore rest
  | rest => pyFloatCore rest
  pyFloatCore (rest : List Char) : Option ℚ :=
    let intPart := rest.takeWhile Char.isDigit
    let after := rest.dropWhile Char.isDigit
    match after with
    | [] => if intPart ≠ [] then some (natOfDigits intPart : ℚ) else none
    | '.' :: frac =>
      if (intPart ≠ [] ∨ frac ≠ []) ∧ allDigits frac then
        some ((natOfDigits intPart : ℚ) + fracOfDigits frac)
      else none
    | _ => none

/-! ## `ResponseParser` (agent.py, fast deterministic path) -/

/-- The keycap digit emoji `d️⃣` (digit, U+FE0F, U+20E3). -/
def keycap (d : Char) : List Char :=
  [d, Char.ofNat 0xFE0F, Char.ofNat 0x20E3]

/-- `number_emoji_map` of `ResponseParser.parse_multiple_choice`. -/
def numberEmojiMap : List (List Char × Nat) :=
  [(keycap '1', 0), (keycap '2', 1), (keycap '3', 2), (keycap '4', 3),
   (keycap '5', 4), (keycap '6', 5), (keycap '7', 6), (keycap '8', 7),
   (keycap '9', 8)]

/-- Normalized exact/substring matching step of
`parse_multiple_choice`: first option that normalizes equal to the
message or stands in bidirectional containment with it. -/
def pmcNorm (m : List Char) (options : List (List Char)) : Option (List Char) :=
  let nm := normalize m
  options.find? fun o =>
    decide (normalize o = nm) || containsSub (normalize o) nm || containsSub nm (normalize o)

/-- Ordinal step of `parse_multiple_choice`: a message of digits selects
the 1-based option; out-of-range falls through to normalized matching. -/
def pmcDigits (m : List Char) (options : List (List Char)) : Option (List Char) :=
  if m ≠ [] ∧ allDigits m then
    let n := natOfDigits m
    if 1 ≤ n ∧ n ≤ options.length then options.get? (n - 1)
    else pmcNorm m options
  else pmcNorm m options

/-- `ResponseParser.parse_multiple_choice`: keycap emoji, then 1-based
ordinal, then normalized exact/containment match; `none` is parse
failure.  An emoji whose index is out of range falls through, exactly
like the Python code. -/
def parseMultipleChoice (message : List Char) (options : List (List Char)) :
    Option (List Char) :=
  let m := trim message
  match (numberEmojiMap.find? fun p => decide (p.1 = m)).map (·.2) with
  | some idx =>
    match options.get? idx with
    | some o => some o
    | none => pmcDigits m options
  | none => pmcDigits m options

/-- `emoji_map` of `ResponseParser.parse_likert` (faces, digits, keycaps). -/
def likertEmojiMap : List (List Char × ℤ) :=
  [([Char.ofNat 0x1F61E], 1), ([Char.ofNat 0x1F641], 2), ([Char.ofNat 0x1F610], 3),
   ([Char.ofNat 0x1F642], 4), ([Char.ofNat 0x1F604], 5),
   (['1'], 1), (['2'], 2), (['3'], 3), (['4'], 4), (['5'], 5),
   (keycap '1', 1), (keycap '2', 2), (keycap '3', 3), (keycap '4', 4), (keycap '5', 5)]

/-- Keyword lexicon of `parse_likert`, in the band order the Python dict
iterates (1 up to 5); the first band containing a matching keyword wins. -/
def likertKeywords : List (ℤ × List (List Char)) :=
  [(1, ["discordo totalmente".data, "discordo muito".data, "pessimo".data, "horrivel".data]),
   (2, ["discordo".data, "ruim".data, "mal".data]),
   (3, ["neutro".data, "medio".data, "mais ou menos".data, "talvez".data]),
   (4, ["concordo".data, "bom".data, "bem".data]),
   (5, ["concordo totalmente".data, "concordo muito".data, "otimo".data, "excelente".data])]

/-- `ResponseParser.parse_likert`. -/
def parseLikert (message : List Char) : Option ℤ :=
  let m := trim message
  match (likertEmojiMap.find? fun p => decide (p.1 = m)).map (·.2) with
  | some v => some v
  | none =>
    let nm := normalize m
    ((likertKeywords.find? fun band =>
        band.2.any fun w => containsSub (normalize w) nm).map (·.1))

/-- `ResponseParser.parse_text`: any non-empty trimmed message succeeds,
truncated to 500 characters. -/
def parseText (message : List Char) : Option (List Char) :=
  let m := trim message
  if m ≠ [] then some (m.take 500) else none

/-! ## Crisis overlay (`utils/safety.py`, `CrisisManager`)

The crisis history entries carry timestamps in Python
(`datetime.utcnow().isoformat()`); wall-clock time is not part of the
embedding, so an entry is `(isUser, content)`.  `save_crisis_state` /
`end_crisis` only copy the in-memory fields into the database row, so the
row is not modelled separately from the in-memory `CrisisState`. -/

structure CrisisState where
  history : List (Bool × List Char)
  crisis_type : Option (List Char)
  safety_score : ℚ
  interaction_count : Nat
deriving DecidableEq, Repr

/-- `resume_signals` of `handle_crisis_conversation`, in the order the
Python list is scanned. -/
def resumeSignals : List (List Char) :=
  ["[RETOMAR_QUESTIONARIO]".data, "[RETOMAR QUESTIONARIO]".data,
   "[RETOMAR_QUESTIONÁRIO]".data, "[RETOMAR QUESTIONÁRIO]".data]

/-- Default acknowledgement substituted when stripping the sentinel
empties the reply. -/
def defaultResumeMsg : List Char :=
  "Que bom que você está se sentindo melhor! Vamos retomar o questionário de onde paramos.".data

/-- Fixed supportive message returned when the crisis-dialogue LLM call
raises. -/
def errorSupportMsg : List Char :=
  ("Estou aqui para te apoiar. Como você está se sentindo agora? " ++
   "Lembre-se que há ajuda disponível: CVV 188 (24h) | SAMU 192").data

/-- Emergency-resources reminder appended every fourth turn. -/
def reminderMsg : List Char :=
  "\n\n📞 Lembre-se: CVV 188 (24h) | SAMU 192".data

/-- Note appended after ten turns without resumption, inviting an
explicit resumption request. -/
def longNote (count : Nat) : List Char :=
  ("\n\n💡 Nota: Já conversamos bastante (".data) ++ (toString count).data ++
  (" mensagens). Se você se sente melhor e quer continuar o questionário, me avise diretamente.".data)

/-- The first accepted sentinel variant occurring in the reply (the
Python loop breaks at the first hit). -/
def findSignal (reply : List Char) : Option (List Char) :=
  resumeSignals.find? fun sig => containsSub sig reply

structure CrisisTurn where
  cs : CrisisState
  response : List Char
  canResume : Bool
deriving DecidableEq, Repr

/-- `CrisisManager.handle_crisis_conversation`.  `llmReply` is the text
the dialogue model returned, `none` if the call raised.  The turn
counter and the user message are committed before the call; on failure
the fixed supportive message is returned with the score untouched.  On
success the reply is appended to the history unstripped, the first
matching sentinel variant (all of its occurrences) is removed from the
visible reply — substituting the default acknowledgement if that leaves
it empty —, the ≥10-turn note and the every-4th-turn resources reminder
are appended on non-resuming turns, and the safety score becomes 8 on
resumption and `min (score + 0.5) 6` otherwise.  Closing the episode
(`end_crisis`) is a database-row update subsumed in `canResume`. -/
def handleCrisisConversation (cs : CrisisState) (userMsg : List Char)
    (llmReply : Option (List Char)) : CrisisTurn :=
  let count := cs.interaction_count + 1
  let hist1 := cs.history ++ [(true, userMsg)]
  match llmReply with
  | none =>
    { cs := { cs with interaction_count := count, history := hist1 },
      response := errorSupportMsg, canResume := false }
  | some reply =>
    let hist2 := hist1 ++ [(false, reply)]
    let stripped :=
      match findSignal reply with
      | some sig =>
        let t := trim (removeAll sig reply)
        (if t = [] then defaultResumeMsg else t, true)
      | none => (reply, false)
    let base := stripped.1
    let canResume := stripped.2
    let base2 := if canResume = false ∧ 10 ≤ count then base ++ longNote count else base
    let score := if canResume then (8 : ℚ) else min (cs.safety_score + 1/2) 6
    let response := if count % 4 = 0 ∧ canResume = false then base2 ++ reminderMsg else base2
    { cs := { cs with interaction_count := count, history := hist2, safety_score := score },
      response := response, canResume := canResume }

/-- One crisis turn's input: the user message and the dialogue model's
reply (`none` = the call raised). -/
def CrisisInput := List Char × Option (List Char)

/-- A turn that does not trigger resumption: either the call raised or
the reply contains no sentinel variant. -/
def resumeFree (inp : CrisisInput) : Prop :=
  ∀ reply, inp.2 = some reply → findSignal reply = none

/-- The successive crisis states along a run of turns (initial state
included). -/
def crisisRun (cs : CrisisState) : List CrisisInput → List CrisisState
  | [] => [cs]
  | (m, r) :: rest => cs :: crisisRun (handleCrisisConversation cs m r).cs rest

/-! ## Data model of the questionnaire state machine (`agent.py`) -/

/-- The `State` enum. -/
inductive StateE where
  | WELCOME | CONSENT | PHASE1_QUESTIONS | ASSESSMENT
  | FOLLOWUP_INTRO | FOLLOWUP_QUESTIONS | ORIGIN_INTRO | ORIGIN_QUESTIONS
  | COMPLETION | EMERGENCY | RESET
deriving DecidableEq, Repr

/-- A phase-1 question as loaded from the static content file
(`questionario.json`, a black-box input): `qid`/`required`/`dimension`
model `question.get('id', ...)`, `question.get('required', False)` and
`question.get('dimension', '')`, with an absent `required`/`dimension`
key embedded as `false`/`[]`. -/
structure Question where
  qid : Option ℤ
  qtext : List Char
  qtype : List Char
  options : List (List Char)
  required : Bool
  dimension : List Char
deriving DecidableEq, Repr

/-- An entry of `phase1_data`: the question snapshot plus the keys the
handlers add to the copied dict (`response`, `desconsiderada`); a fresh
copy has neither key, i.e. `none` / `false`. -/
structure P1Item where
  q : Question
  response : Option Value
  desconsiderada : Bool
deriving DecidableEq, Repr

/-- A fixed follow-up (deepening) question of `FOLLOWUP_QUESTIONS`. -/
structure FQuestion where
  fid : List Char
  ftext : List Char
  options : List (List Char)
deriving DecidableEq, Repr

/-- One of the two fixed origin questions of `ORIGIN_QUESTIONS`. -/
structure OQuestion where
  oid : List Char
  otext : List Char
  otype : List Char
  options : List (List Char)
deriving DecidableEq, Repr

def simNaoOptions : List (List Char) :=
  ["Sim".data, "Não".data, "Prefiro não responder".data]

/-- The `FOLLOWUP_QUESTIONS` constant. -/
def followupQuestions : List FQuestion :=
  [⟨"A1".data, "Já tive afastamento do trabalho por alguma causa psicossocial?".data, simNaoOptions⟩,
   ⟨"A2".data, "Nas últimas duas semanas, você se sentiu para baixo, deprimido ou sem esperanças?".data, simNaoOptions⟩,
   ⟨"A3".data, "Você perdeu o interesse ou o prazer em fazer coisas que normalmente gosta?".data, simNaoOptions⟩,
   ⟨"A4".data, "Nas últimas duas semanas, você se sentiu nervoso, ansioso ou tenso?".data, simNaoOptions⟩,
   ⟨"A5".data, "Você teve dificuldade em parar ou controlar as preocupações?".data, simNaoOptions⟩,
   ⟨"A6".data, "Você tem se sentido tão agitado que é difícil ficar parado ou relaxar?".data, simNaoOptions⟩]

/-- The `ORIGIN_QUESTIONS` constant (two questions per triggered
dimension: one multiple choice, one free text). -/
def originQuestions : List OQuestion :=
  [⟨"O1".data,
    "Sabemos que coisas do trabalho e da vida pessoal podem se misturar. Para agir melhor, de onde vem essa situação?".data,
    "multiple choice".data,
    ["Do ambiente de trabalho".data, "Da vida pessoal".data, "Dos dois".data, "Prefiro não responder".data]⟩,
   ⟨"O2".data,
    "É importante saber se a empresa tem condições de agir sobre o que você trouxe. Na sua opinião, a empresa poderia fazer algo para melhorar essa situação?".data,
    "text".data, []⟩]

/-- A follow-up answer record (`q_copy` with a `response` key). -/
structure FRecord where
  q : FQuestion
  response : Value
deriving DecidableEq, Repr

/-- An origin answer record. -/
structure ORecord where
  q : OQuestion
  response : Value
deriving DecidableEq, Repr

/-- `followup_data`: the deepening answers plus the per-dimension origin
answers (`origem_riscos`), the latter an insertion-ordered dict embedded
as an association list. -/
structure FollowupData where
  aprofundamento : List FRecord
  origem_riscos : List (List Char × List ORecord)
deriving DecidableEq, Repr

def emptyFollowupData : FollowupData := ⟨[], []⟩

/-- Keys of the `attempt_counts` dict: `"q_{id}"`, `"q_{id}_clarifications"`
and `"followup_{id}_clarifications"`. -/
inductive AKey where
  | raw (n : ℤ)
  | clar (n : ℤ)
  | fclar (s : List Char)
deriving DecidableEq, Repr

def lookupCount (l : List (AKey × Nat)) (k : AKey) : Nat :=
  ((l.find? fun p => decide (p.1 = k)).map (·.2)).getD 0

/-- Dict assignment `attempt_counts[k] = v` (update in place or insert at
the end, like a Python dict). -/
def setCount (l : List (AKey × Nat)) (k : AKey) (v : Nat) : List (AKey × Nat) :=
  if l.any fun p => decide (p.1 = k) then
    l.map fun p => if p.1 = k then (p.1, v) else p
  else l ++ [(k, v)]

/-- The per-participant session: the fields of `QuestionnaireStateMachine`
that `save_state` persists, plus the in-memory `crisis_manager`. -/
structure Session where
  state : StateE
  current_question_index : Nat
  phase1_data : List P1Item
  followup_data : FollowupData
  trigger_dimensions : List (List Char)
  attempt_counts : List (AKey × Nat)
  skipped_questions : Nat
  pre_crisis_state : Option StateE
  pre_crisis_question_index : Option Nat
  crisis : Option CrisisState
deriving DecidableEq, Repr

/-- The field values `__init__`/`reset` establish (a session absent from
the database is loaded as this, with state `WELCOME`). -/
def defaultSession : Session :=
  { state := .WELCOME, current_question_index := 0, phase1_data := [],
    followup_data := emptyFollowupData, trigger_dimensions := [],
    attempt_counts := [], skipped_questions := 0, pre_crisis_state := none,
    pre_crisis_question_index := none, crisis := none }

/-- `QuestionnaireStateMachine.enter_crisis_mode`: snapshot the current
(state, cursor) pair into the `pre_crisis_*` fields, switch to
`EMERGENCY` and create a fresh crisis episode (never loaded from a prior
one) with the detected type and initial score. -/
def enterCrisisMode (sess : Session) (ctype : Option (List Char))
    (initialScore : ℚ) : Session :=
  { sess with
    pre_crisis_state := some sess.state,
    pre_crisis_question_index := some sess.current_question_index,
    state := .EMERGENCY,
    crisis := some { history := [], crisis_type := ctype,
                     safety_score := initialScore, interaction_count := 0 } }

/-- `QuestionnaireStateMachine.exit_crisis_mode`: restore the snapshot
and clear it, or fall back to `WELCOME` with cursor 0 when no snapshot
exists.  (Python tests only the truthiness of `pre_crisis_state`; in the
unreachable case where the state half of the snapshot is set but the
index half is `None`, Python would assign `None` to the integer cursor —
`getD` keeps the embedding well-typed there.) -/
def exitCrisisMode (sess : Session) : Session :=
  match sess.pre_crisis_state with
  | some ps =>
    { sess with
      state := ps,
      current_question_index := sess.pre_crisis_question_index.getD sess.current_question_index,
      pre_crisis_state := none, pre_crisis_question_index := none,
      crisis := none }
  | none =>
    { sess with state := .WELCOME, current_question_index := 0, crisis := none }

/-! ## Safety screening and escalation (`SafetyProtocol`, `process_message`) -/

/-- Result of the cheap screening pass. -/
structure ScreeningResult where
  has_risk : Bool
  rtype : List Char
  confidence : ℚ
  reasoning : List Char
deriving DecidableEq, Repr

/-- Result of the expensive detailed pass.  A response missing the
`initial_safety_score` key is embedded as score 3 (the `.get` default at
the call site). -/
structure DetailedResult where
  is_emergency : Bool
  dtype : Option (List Char)
  severity : List Char
  confidence : ℚ
  initial_safety_score : ℚ
deriving DecidableEq, Repr

/-- The conservative fallback `llm_detailed_check` returns when the
classifier call raises: an emergency of the screened type, severity
high, confidence 0.7, initial safety score 3. -/
def fallbackDetailed (initial : ScreeningResult) : DetailedResult :=
  { is_emergency := true, dtype := some initial.rtype,
    severity := "high".data, confidence := 7/10, initial_safety_score := 3 }

/-- `SafetyProtocol.llm_detailed_check`: the classifier's structured
answer if the call succeeded, the conservative fallback otherwise. -/
def llmDetailedCheck (initial : ScreeningResult)
    (oracle : Option DetailedResult) : DetailedResult :=
  oracle.getD (fallbackDetailed initial)

/-- `SAFETY_CONFIDENCE_THRESHOLD` (settings default "0.4"). -/
def safetyThreshold : ℚ := 2/5

/-- The escalation step of `process_message` (run when no crisis episode
is open): if screening reports risk with confidence at or above the
threshold, run the detailed check (with its internal fallback) and open
a crisis episode when it confirms an emergency with confidence above
0.6.  Returns the new session and whether a crisis was opened. -/
def processScreeningStep (sess : Session) (screening : ScreeningResult)
    (detailedOracle : Option DetailedResult) : Session × Bool :=
  if screening.has_risk ∧ safetyThreshold ≤ screening.confidence then
    let d := llmDetailedCheck screening detailedOracle
    if d.is_emergency ∧ (3/5 : ℚ) < d.confidence then
      (enterCrisisMode sess d.dtype d.initial_safety_score, true)
    else (sess, false)
  else (sess, false)

/-! ## Assessment (`QuestionnaireStateMachine.do_assessment`) -/

/-- Python `str.lower()` (ASCII; accents are untouched by `lower`). -/
def lowerAscii (s : List Char) : List Char :=
  s.map fun c => if 'A' ≤ c ∧ c ≤ 'Z' then Char.ofNat (c.toNat + 32) else c

/-- The fixed `target_dimensions` set of `do_assessment`. -/
def targetDimensions : List (List Char) :=
  ["Qualidade do sono e disposição".data,
   "Ânimo e motivação".data,
   "Estresse e ansiedade".data,
   "Equilíbrio vida-trabalho".data,
   "Exigências de tempo no trabalho".data]

def targetNorms : List (List Char) := targetDimensions.map normalize

/-- A phase-1 item contributes its dimension to the grouping iff it is a
Likert item (`type.lower() == 'likert'`), not disregarded, and has a
non-null response. -/
def p1ValidDim (it : P1Item) : Option (List Char) :=
  if lowerAscii it.q.qtype = "likert".data ∧ it.desconsiderada = false ∧ it.response.isSome
  then some it.q.dimension else none

/-- The score a contributing item adds: `float(item['response'])`,
`none` when the conversion raises (swallowed by the bare `except`). -/
def p1Score (it : P1Item) : Option ℚ :=
  match it.response with
  | some v => pyFloat v
  | none => none

/-- One iteration of the grouping loop of `do_assessment`: register the
dimension (with an empty score list) on first sight, then append the
converted response if the conversion succeeded. -/
def assessAdd (acc : List (List Char × List ℚ)) (it : P1Item) :
    List (List Char × List ℚ) :=
  match p1ValidDim it with
  | none => acc
  | some dim =>
    let acc1 := if acc.any fun p => decide (p.1 = dim) then acc else acc ++ [(dim, [])]
    match p1Score it with
    | none => acc1
    | some v => acc1.map fun p => if p.1 = dim then (p.1, p.2 ++ [v]) else p

/-- The `dimension_scores` dict (insertion-ordered). -/
def dimensionScores (data : List P1Item) : List (List Char × List ℚ) :=
  data.foldl assessAdd []

def avgQ (scores : List ℚ) : ℚ := scores.sum / scores.length

/-- The trigger-selection loop of `do_assessment`: a dimension of the
grouping is appended when its score list is non-empty, its normalized
name is among the normalized target dimensions, and its average is
≤ 3.0. -/
def doAssessmentTriggers (data : List P1Item) : List (List Char) :=
  (dimensionScores data).foldl
    (fun acc p =>
      if p.2 ≠ [] ∧ normalize p.1 ∈ targetNorms ∧ avgQ p.2 ≤ 3 then acc ++ [p.1] else acc)
    []

/-! Spec-side formulation of the assessment, for the refinement theorem
of claim C1: dimensions in order of first observation, each scored by a
direct filter over the answers. -/

/-- Dimensions of contributing items in order of first observation,
skipping those already in `seen`. -/
def firstSeenFrom (seen : List (List Char)) : List P1Item → List (List Char)
  | [] => []
  | it :: rest =>
    match p1ValidDim it with
    | none => firstSeenFrom seen rest
    | some d => if d ∈ seen then firstSeenFrom seen rest else d :: firstSeenFrom (d :: seen) rest

/-- All scores dimension `d` receives, read directly off the answer
list. -/
def dimScoresSpec (data : List P1Item) (d : List Char) : List ℚ :=
  data.filterMap fun it => if p1ValidDim it = some d then p1Score it else none

/-- Spec-side assessment (the amended claim C1): the dimensions in
first-observed order whose normalized name is a target dimension, that
received at least one convertible score, and whose average is ≤ 3.0. -/
def assessSpec (data : List P1Item) : List (List Char) :=
  (firstSeenFrom [] data).filter fun d =>
    dimScoresSpec data d ≠ [] ∧ normalize d ∈ targetNorms ∧ avgQ (dimScoresSpec data d) ≤ 3

/-! ## `ResponseParser.llm_parse` (interpretation fallback)

The two LLM calls inside `llm_parse` are oracles: `analysis` is the
intent-classification JSON (`none` = the call raised), `interp` the
type-specific interpretation JSON (`none` = that call raised).  The
local decision logic around them is embedded verbatim. -/

inductive Intent where
  | questionI | answer | skipRequest | offTopic
deriving DecidableEq, Repr

/-- The intent-classification JSON.  `Intent.answer` also stands for any
unrecognized intent string, which the Python code treats identically
(no branch matches and interpretation is attempted). -/
structure Analysis where
  intent : Intent
  confidence : ℚ
  wants_to_skip : Bool
  clarification_response : Option (List Char)
  should_insist : Bool
deriving DecidableEq, Repr

/-- The type-specific interpretation JSON. -/
structure Interp where
  value : Value
  confidence : ℚ
deriving DecidableEq, Repr

/-- The dict `llm_parse` (and the fast parsers) return, with the keys the
callers probe via `.get` (absent key = `false`/`none`). -/
structure Parsed where
  success : Bool
  value : Option Value
  wants_to_skip : Bool
  is_clarification : Bool
  clarification_limit_reached : Bool
  clarification_response : Option (List Char)
  is_off_topic : Bool
  could_not_interpret : Bool
  errored : Bool
deriving DecidableEq, Repr

def Parsed.failP : Parsed :=
  { success := false, value := none, wants_to_skip := false,
    is_clarification := false, clarification_limit_reached := false,
    clarification_response := none, is_off_topic := false,
    could_not_interpret := false, errored := false }

def Parsed.ok (v : Value) : Parsed :=
  { Parsed.failP with success := true, value := some v }

/-- `ResponseParser.llm_parse`: skip intent first, then clarifying
questions (confidence > 0.6; insisting once two clarifications were
already granted), then off-topic (confidence > 0.7), then the
type-specific interpretation (accepted only with a truthy value and
confidence > 0.7); free-text questions accept any non-empty message
directly.  A raised first call yields the bare error dict; a raised
second call likewise. -/
def llmParse (message : List Char) (question : Question)
    (clarificationCount : Nat) (analysis : Option Analysis)
    (interp : Option Interp) : Parsed :=
  match analysis with
  | none => { Parsed.failP with errored := true }
  | some a =>
    if a.intent = .skipRequest ∨ a.wants_to_skip then
      { Parsed.failP with wants_to_skip := true }
    else if a.intent = .questionI ∧ (3/5 : ℚ) < a.confidence then
      if a.should_insist ∨ 2 ≤ clarificationCount then
        { Parsed.failP with is_clarification := true, clarification_limit_reached := true }
      else
        { Parsed.failP with is_clarification := true, clarification_response := a.clarification_response }
    else if a.intent = .offTopic ∧ (7/10 : ℚ) < a.confidence then
      { Parsed.failP with is_off_topic := true }
    else if question.qtype = "likert".data ∨ question.qtype = "multiple choice".data then
      match interp with
      | none => { Parsed.failP with errored := true }
      | some r =>
        if pyTruthy r.value ∧ (7/10 : ℚ) < r.confidence then
          { Parsed.failP with success := true, value := some r.value }
        else
          { Parsed.failP with could_not_interpret := true }
    else
      if trim message ≠ [] then
        { Parsed.failP with success := true, value := some (.str (message.take 500)) }
      else Parsed.failP

/-! ## Phase handlers

Outgoing messages are embedded as `Reply` tags, one constructor per
`return` site, carrying the data the message interpolates (notably the
question being presented next or re-presented).  `row` models the
`questionnaire_state` database row (`save_state` upserts the full
session; `reset` deletes the row, clears the fields and saves again).
`s3` accumulates the write-once archival documents. -/

inductive Archive where
  | phase1Arc (data : List P1Item)
  | followupsArc (d : FollowupData)
deriving DecidableEq, Repr

inductive Reply where
  | requiredRefusal (q : Question)
  | skipLimitReset
  | skippedNext (remaining : Nat) (next : Option Question)
  | clarInsist (q : Question)
  | clarifyR (text : List Char) (q : Question)
  | offTopicR (q : Question)
  | attemptsResetRequired
  | attemptsRetryRequired (attempts : Nat) (q : Question)
  | autoSkipReset
  | autoSkipNext (next : Option Question)
  | attemptsRetry (attempts : Nat) (q : Question)
  | invalidOption (q : Question)
  | invalidLikert (q : Question)
  | answeredNext (v : Value) (next : Option Question)
  | processingError
  | indexError
  | followupIntro
  | completionMsg
  | fClarInsist (fq : FQuestion)
  | fClarify (text : List Char) (fq : FQuestion)
  | fOffTopic (fq : FQuestion)
  | fInvalid (fq : FQuestion)
  | fAnsweredNext (v : Value) (next : Option FQuestion)
  | fDoneOriginIntro (v : Value)
  | fReprompt (fq : FQuestion)
  | fEmpty
  | oClarify (text : List Char) (oq : OQuestion)
  | oInvalid
  | oNext (next : Option OQuestion) (newDim : Option (List Char))
deriving DecidableEq, Repr

structure StepResult where
  sess : Session
  row : Option Session
  s3 : List Archive
  reply : Reply
deriving DecidableEq, Repr

/-- The state transition of `do_assessment` around `doAssessmentTriggers`:
store the triggers, archive phase 1, then either move to
`FOLLOWUP_QUESTIONS` with the cursor at 0, or (no trigger) move to
`COMPLETION`, whose message immediately `reset`s the session — the net
effect is a fresh default row. -/
def doAssessmentStep (sess : Session) (s3 : List Archive) : StepResult :=
  let triggers := doAssessmentTriggers sess.phase1_data
  let sess1 := { sess with trigger_dimensions := triggers }
  let s3a := s3 ++ [.phase1Arc sess1.phase1_data]
  if triggers ≠ [] then
    let sess2 := { sess1 with state := .FOLLOWUP_QUESTIONS, current_question_index := 0 }
    { sess := sess2, row := some sess2, s3 := s3a, reply := .followupIntro }
  else
    { sess := defaultSession, row := some defaultSession, s3 := s3a, reply := .completionMsg }

/-- Python `parsed['value'] not in valid_options` (negated): equality of
the dynamic value with one of the option strings. -/
def valueInOptions (v : Value) (opts : List (List Char)) : Bool :=
  opts.any fun o => decide (v = Value.str o)

/-- The deterministic fast-parse dispatch at the top of
`handle_phase1_question`. -/
def phase1FastParse (message : List Char) (q : Question) : Parsed :=
  if q.qtype = "multiple choice".data then
    match parseMultipleChoice message q.options with
    | some o => Parsed.ok (.str o)
    | none => Parsed.failP
  else if q.qtype = "likert".data then
    match parseLikert message with
    | some n => Parsed.ok (.num (n : ℚ))
    | none => Parsed.failP
  else
    match parseText message with
    | some t => Parsed.ok (.str t)
    | none => Parsed.failP

/-- The Likert re-validation test: `int(value)` raises, or truncates
outside 1–5. -/
def likertInvalid (v : Value) : Bool :=
  match pyInt v with
  | none => true
  | some n => decide (n < 1 ∨ 5 < n)

/-- Success block of `handle_phase1_question`: re-validate the value
(multiple choice against the option list, Likert via `int()` against
1–5, rejecting with a re-prompt), record it, zero the attempt and
clarification counters, advance the cursor, reveal the next question —
or, past the last question, move to `ASSESSMENT` and assess. -/
def phase1Success (Q : List Question) (sessA : Session) (row : Option Session)
    (s3 : List Archive) (item : P1Item) (idx : Nat) (kid : ℤ) (v : Value) :
    StepResult :=
  let q := item.q
  if q.qtype = "multiple choice".data ∧ valueInOptions v q.options = false then
    { sess := sessA, row := row, s3 := s3, reply := .invalidOption q }
  else if q.qtype = "likert".data ∧ likertInvalid v then
    { sess := sessA, row := row, s3 := s3, reply := .invalidLikert q }
  else
    let data1 := sessA.phase1_data.set idx { item with response := some v, desconsiderada := false }
    let counts2 := setCount (setCount sessA.attempt_counts (.raw kid) 0) (.clar kid) 0
    let sessB := { sessA with
      phase1_data := data1, attempt_counts := counts2,
      current_question_index := idx + 1 }
    if Q.length ≤ idx + 1 then
      let sessC := { sessB with state := .ASSESSMENT }
      doAssessmentStep sessC s3
    else
      let sessC :=
        match Q.get? (idx + 1) with
        | some nq => { sessB with phase1_data := sessB.phase1_data ++ [⟨nq, none, false⟩] }
        | none => sessB
      { sess := sessC, row := some sessC, s3 := s3, reply := .answeredNext v (Q.get? (idx + 1)) }

/-- Skip-request block of `handle_phase1_question`: required questions
refuse and re-present; at the skip cap (5) the whole session is reset;
otherwise the question is disregarded, `skipped_questions` incremented
and the cursor advanced (possibly finishing the phase). -/
def phase1Skip (Q : List Question) (sessA : Session) (row : Option Session)
    (s3 : List Archive) (item : P1Item) (idx : Nat) : StepResult :=
  if item.q.required then
    { sess := sessA, row := row, s3 := s3, reply := .requiredRefusal item.q }
  else if 5 ≤ sessA.skipped_questions then
    { sess := defaultSession, row := some defaultSession, s3 := s3, reply := .skipLimitReset }
  else
    let remaining := 5 - sessA.skipped_questions - 1
    let data1 := sessA.phase1_data.set idx { item with response := none, desconsiderada := true }
    let sessB := { sessA with
      phase1_data := data1,
      skipped_questions := sessA.skipped_questions + 1,
      current_question_index := idx + 1 }
    let sessC :=
      if idx + 1 < Q.length ∧ sessB.phase1_data.length ≤ idx + 1 then
        match Q.get? (idx + 1) with
        | some nq => { sessB with phase1_data := sessB.phase1_data ++ [⟨nq, none, false⟩] }
        | none => sessB
      else sessB
    if Q.length ≤ idx + 1 then
      let sessD := { sessC with state := .ASSESSMENT }
      doAssessmentStep sessD s3
    else
      { sess := sessC, row := some sessC, s3 := s3,
        reply := .skippedNext remaining (Q.get? (idx + 1)) }

/-- Could-not-interpret block of `handle_phase1_question`: required
questions allow 5 raw attempts before a forced reset; optional questions
auto-skip after 3 attempts (immediately resetting when that pushes
`skipped_questions` to the cap). -/
def phase1Attempts (Q : List Question) (sessA : Session) (row : Option Session)
    (s3 : List Archive) (item : P1Item) (idx : Nat) (attempts : Nat) : StepResult :=
  if item.q.required then
    if 5 ≤ attempts then
      { sess := defaultSession, row := some defaultSession, s3 := s3, reply := .attemptsResetRequired }
    else
      { sess := sessA, row := row, s3 := s3, reply := .attemptsRetryRequired attempts item.q }
  else
    if 3 ≤ attempts then
      let data1 := sessA.phase1_data.set idx { item with response := none, desconsiderada := true }
      let sessB := { sessA with
        phase1_data := data1,
        skipped_questions := sessA.skipped_questions + 1 }
      if 5 ≤ sessB.skipped_questions then
        { sess := defaultSession, row := some defaultSession, s3 := s3, reply := .autoSkipReset }
      else
        let sessC := { sessB with current_question_index := idx + 1 }
        let sessD :=
          if idx + 1 < Q.length ∧ sessC.phase1_data.length ≤ idx + 1 then
            match Q.get? (idx + 1) with
            | some nq => { sessC with phase1_data := sessC.phase1_data ++ [⟨nq, none, false⟩] }
            | none => sessC
          else sessC
        if Q.length ≤ idx + 1 then
          let sessE := { sessD with state := .ASSESSMENT }
          doAssessmentStep sessE s3
        else
          { sess := sessD, row := some sessD, s3 := s3, reply := .autoSkipNext (Q.get? (idx + 1)) }
    else
      { sess := sessA, row := row, s3 := s3, reply := .attemptsRetry attempts item.q }

/-- `QuestionnaireStateMachine.handle_phase1_question`.  `Q` is the
loaded questionnaire, `analysis`/`interp` the oracles for the two LLM
calls of `llm_parse` (consulted only when the fast parse fails).  An
out-of-range `phase1_data` access raises in Python and is answered by
the generic top-level handler (`indexError`). -/
def handlePhase1 (Q : List Question) (sess : Session) (row : Option Session)
    (s3 : List Archive) (message : List Char) (analysis : Option Analysis)
    (interp : Option Interp) : StepResult :=
  if Q.length ≤ sess.current_question_index then
    let sess1 := { sess with state := .ASSESSMENT }
    doAssessmentStep sess1 s3
  else
    match sess.phase1_data.get? sess.current_question_index with
    | none => { sess := sess, row := row, s3 := s3, reply := .indexError }
    | some item =>
      let idx := sess.current_question_index
      let q := item.q
      let kid : ℤ := q.qid.getD (idx : ℤ)
      let counts1 := setCount sess.attempt_counts (.raw kid)
        (lookupCount sess.attempt_counts (.raw kid) + 1)
      let attempts := lookupCount counts1 (.raw kid)
      let clarCount := lookupCount counts1 (.clar kid)
      let sessA := { sess with attempt_counts := counts1 }
      let fast := phase1FastParse message q
      if fast.success then
        phase1Success Q sessA row s3 item idx kid (fast.value.getD .nullv)
      else
        let parsed := llmParse message q clarCount analysis interp
        if parsed.wants_to_skip then
          phase1Skip Q sessA row s3 item idx
        else if parsed.is_clarification then
          let sessB := { sessA with attempt_counts := setCount counts1 (.clar kid) (clarCount + 1) }
          if parsed.clarification_limit_reached then
            { sess := sessB, row := row, s3 := s3, reply := .clarInsist q }
          else
            { sess := sessB, row := row, s3 := s3,
              reply := .clarifyR (parsed.clarification_response.getD "Vou esclarecer sua dúvida.".data) q }
        else if parsed.is_off_topic then
          { sess := sessA, row := row, s3 := s3, reply := .offTopicR q }
        else if parsed.could_not_interpret then
          phase1Attempts Q sessA row s3 item idx attempts
        else if parsed.success then
          phase1Success Q sessA row s3 item idx kid (parsed.value.getD .nullv)
        else
          { sess := sessA, row := row, s3 := s3, reply := .processingError }

/-- The ad-hoc question dict `handle_followup_questions` builds for
`llm_parse` (no id, no required flag). -/
def followupQuestionDict (fq : FQuestion) : Question :=
  { qid := none, qtext := fq.ftext, qtype := "multiple choice".data,
    options := fq.options, required := false, dimension := [] }

/-- Success block of `handle_followup_questions`: re-validate the value
against the option list, append the answer record, zero the
clarification counter, advance — transitioning to `ORIGIN_QUESTIONS`
when the fixed list is exhausted. -/
def followupSuccess (sess : Session) (row : Option Session) (s3 : List Archive)
    (fq : FQuestion) (clarKey : AKey) (v : Value) : StepResult :=
  if valueInOptions v fq.options = false then
    { sess := sess, row := row, s3 := s3, reply := .fInvalid fq }
  else
    let fd := { sess.followup_data with
                aprofundamento := sess.followup_data.aprofundamento ++ [⟨fq, v⟩] }
    let sessB := { sess with
      followup_data := fd,
      attempt_counts := setCount sess.attempt_counts clarKey 0,
      current_question_index := sess.current_question_index + 1 }
    if followupQuestions.length ≤ sessB.current_question_index then
      let sessC := { sessB with state := .ORIGIN_QUESTIONS, current_question_index := 0 }
      { sess := sessC, row := some sessC, s3 := s3, reply := .fDoneOriginIntro v }
    else
      { sess := sessB, row := some sessB, s3 := s3,
        reply := .fAnsweredNext v (followupQuestions.get? sessB.current_question_index) }

/-- `QuestionnaireStateMachine.handle_followup_questions`.  An LLM skip
or could-not-interpret outcome is not special-cased here and falls
through to the option re-prompt. -/
def handleFollowup (sess : Session) (row : Option Session) (s3 : List Archive)
    (message : List Char) (analysis : Option Analysis) (interp : Option Interp) :
    StepResult :=
  match followupQuestions.get? sess.current_question_index with
  | none => { sess := sess, row := row, s3 := s3, reply := .fEmpty }
  | some fq =>
    let clarKey := AKey.fclar fq.fid
    let clarCount := lookupCount sess.attempt_counts clarKey
    let fast : Parsed :=
      match parseMultipleChoice message fq.options with
      | some o => Parsed.ok (.str o)
      | none => Parsed.failP
    if fast.success then
      followupSuccess sess row s3 fq clarKey (fast.value.getD .nullv)
    else
      let parsed := llmParse message (followupQuestionDict fq) clarCount analysis interp
      if parsed.is_clarification then
        let sessB := { sess with
                       attempt_counts := setCount sess.attempt_counts clarKey (clarCount + 1) }
        if parsed.clarification_limit_reached then
          { sess := sessB, row := row, s3 := s3, reply := .fClarInsist fq }
        else
          { sess := sessB, row := row, s3 := s3,
            reply := .fClarify (parsed.clarification_response.getD []) fq }
      else if parsed.is_off_topic then
        { sess := sess, row := row, s3 := s3, reply := .fOffTopic fq }
      else if parsed.success then
        followupSuccess sess row s3 fq clarKey (parsed.value.getD .nullv)
      else
        { sess := sess, row := row, s3 := s3, reply := .fReprompt fq }

/-- The ad-hoc question dict `handle_origin_questions` builds for
`llm_parse`. -/
def originQuestionDict (oq : OQuestion) : Question :=
  { qid := none, qtext := oq.otext, qtype := "multiple choice".data,
    options := oq.options, required := false, dimension := [] }

/-- Record an origin answer under the current dimension (creating the
dict entry on first sight), advance the cursor, and either present the
next origin question or — all dimensions exhausted — archive the
follow-up data and complete (which resets the session). -/
def originRecordAdvance (sess : Session) (s3 : List Archive)
    (currentDim : List Char) (oq : OQuestion) (v : Value) : StepResult :=
  let om := sess.followup_data.origem_riscos
  let om1 := if om.any fun p => decide (p.1 = currentDim) then om else om ++ [(currentDim, [])]
  let om2 := om1.map fun p => if p.1 = currentDim then (p.1, p.2 ++ [(⟨oq, v⟩ : ORecord)]) else p
  let sessB := { sess with
                 followup_data := { sess.followup_data with origem_riscos := om2 },
                 current_question_index := sess.current_question_index + 1 }
  let newDimIdx := sessB.current_question_index / 2
  let newQIdx := sessB.current_question_index % 2
  if sessB.trigger_dimensions.length ≤ newDimIdx then
    { sess := defaultSession, row := some defaultSession,
      s3 := s3 ++ [.followupsArc sessB.followup_data], reply := .completionMsg }
  else
    { sess := sessB, row := some sessB, s3 := s3,
      reply := .oNext (originQuestions.get? newQIdx)
                      (if newQIdx = 0 then sessB.trigger_dimensions.get? newDimIdx else none) }

/-- `QuestionnaireStateMachine.handle_origin_questions`: the active
dimension is `question_index // 2`, the active sub-question
`question_index % 2`; sub-question 0 is multiple choice (fast parse,
then LLM, with no option re-validation of the interpreted value),
sub-question 1 free text recorded verbatim truncated to 500 characters
with no parsing at all. -/
def handleOrigin (sess : Session) (row : Option Session) (s3 : List Archive)
    (message : List Char) (analysis : Option Analysis) (interp : Option Interp) :
    StepResult :=
  let dimIdx := sess.current_question_index / 2
  let qIdx := sess.current_question_index % 2
  if sess.trigger_dimensions.length ≤ dimIdx then
    { sess := defaultSession, row := some defaultSession,
      s3 := s3 ++ [.followupsArc sess.followup_data], reply := .completionMsg }
  else
    let currentDim := (sess.trigger_dimensions.get? dimIdx).getD []
    match originQuestions.get? qIdx with
    | none => { sess := sess, row := row, s3 := s3, reply := .indexError }
    | some oq =>
      if qIdx = 0 then
        match parseMultipleChoice message oq.options with
        | some o => originRecordAdvance sess s3 currentDim oq (.str o)
        | none =>
          let parsed := llmParse message (originQuestionDict oq) 0 analysis interp
          if parsed.is_clarification then
            { sess := sess, row := row, s3 := s3,
              reply := .oClarify (parsed.clarification_response.getD []) oq }
          else if parsed.success = false then
            { sess := sess, row := row, s3 := s3, reply := .oInvalid }
          else
            originRecordAdvance sess s3 currentDim oq (parsed.value.getD .nullv)
      else
        originRecordAdvance sess s3 currentDim oq (.str (message.take 500))

/-- Lookup in the `origem_riscos` dict (first entry with the key; `[]`
when absent). -/
def lookupOrigem (fd : FollowupData) (dim : List Char) : List ORecord :=
  ((fd.origem_riscos.find? fun p => decide (p.1 = dim)).map (·.2)).getD []

/-! ## Concrete fixtures for counterexamples and witnesses -/

/-- A multiple-choice phase-1 question with a given id and required
flag (shape of the unit/department/employment-type questions). -/
def exQMC (id : ℤ) (req : Bool) : Question :=
  { qid := some id, qtext := "Em qual unidade você trabalha?".data,
    qtype := "multiple choice".data,
    options := ["Unidade A".data, "Unidade B".data], required := req,
    dimension := [] }

/-- A Likert phase-1 question. -/
def exQLikert : Question :=
  { qid := some 10, qtext := "Durmo bem e acordo com disposição.".data,
    qtype := "likert".data, options := [], required := false,
    dimension := "Qualidade do sono e disposição".data }

/-- An intent classification that detects a skip request. -/
def exSkipAnalysis : Analysis :=
  { intent := .skipRequest, confidence := 9/10, wants_to_skip := true,
    clarification_response := none, should_insist := false }

/-- An intent classification that detects an answer attempt. -/
def exAnswerAnalysis : Analysis :=
  { intent := .answer, confidence := 9/10, wants_to_skip := false,
    clarification_response := none, should_insist := false }

/-- A session sitting at an optional phase-1 question with the skip
budget already exhausted. -/
def exSessCap : Session :=
  { defaultSession with
    state := .PHASE1_QUESTIONS,
    phase1_data := [⟨exQMC 4 false, none, false⟩],
    skipped_questions := 5 }

/-- A session sitting at a required phase-1 question. -/
def exSessReq : Session :=
  { defaultSession with
    state := .PHASE1_QUESTIONS,
    phase1_data := [⟨exQMC 4 true, none, false⟩] }

/-- A session sitting at a question whose id is in the required-id set
`[4, 5, 7]` of `llm_parse` but whose `required` flag is false. -/
def exSessId4 : Session :=
  { defaultSession with
    state := .PHASE1_QUESTIONS,
    phase1_data := [⟨exQMC 4 false, none, false⟩] }

/-- A session sitting at an optional phase-1 question with no skips
used yet. -/
def exSessFresh : Session :=
  { defaultSession with
    state := .PHASE1_QUESTIONS,
    phase1_data := [⟨exQMC 9 false, none, false⟩] }

/-- A session sitting at the first of two phase-1 questions, the first
being Likert. -/
def exSessLikert : Session :=
  { defaultSession with
    state := .PHASE1_QUESTIONS,
    phase1_data := [⟨exQLikert, none, false⟩] }

/-- A two-question questionnaire starting with the Likert question. -/
def exQListLikert : List Question := [exQLikert, exQMC 4 true]

/-- A mid-questionnaire session: `PHASE1_QUESTIONS` at cursor 7. -/
def exSessP17 : Session :=
  { defaultSession with state := .PHASE1_QUESTIONS, current_question_index := 7 }

/-- A likert phase-1 answer with a given dimension tag and numeric
response. -/
def exLikItem (dim : List Char) (v : ℚ) : P1Item :=
  { q := { qid := none, qtext := [], qtype := "likert".data, options := [],
           required := false, dimension := dim },
    response := some (.num v), desconsiderada := false }

/-- The phase-1 answers of the claim's example: dimension tags `d1` with
responses 2 and 3, `d2` with responses 4 and 5. -/
def exC1Data : List P1Item :=
  [exLikItem "d1".data 2, exLikItem "d1".data 3,
   exLikItem "d2".data 4, exLikItem "d2".data 5]

/-- The same example over real target dimensions. -/
def exC1TargetData : List P1Item :=
  [exLikItem "Qualidade do sono e disposição".data 2,
   exLikItem "Qualidade do sono e disposição".data 3,
   exLikItem "Ânimo e motivação".data 4,
   exLikItem "Ânimo e motivação".data 5]

/-- A fresh crisis state (as created by `enter_crisis_mode` with initial
score 3). -/
def exCrisis3 : CrisisState :=
  { history := [], crisis_type := some "suicide".data, safety_score := 3,
    interaction_count := 0 }

/-- A crisis state whose safety score is 7 (a legal initial score: the
detailed check hands back `initial_safety_score` in 0–10). -/
def exCrisis7 : CrisisState :=
  { exCrisis3 with safety_score := 7 }

/-- A crisis-dialogue reply containing two distinct accepted sentinel
variants. -/
def exTwoVariantReply : List Char :=
  "[RETOMAR_QUESTIONARIO][RETOMAR QUESTIONARIO]".data

/-- A screening result above the escalation threshold. -/
def exScreening : ScreeningResult :=
  { has_risk := true, rtype := "suicide".data, confidence := 11/20,
    reasoning := "menção a desistir de viver".data }

/-- A session in the origin phase at the free-text sub-question of the
first of two triggered dimensions. -/
def exSessOrigin : Session :=
  { defaultSession with
    state := .ORIGIN_QUESTIONS,
    current_question_index := 1,
    trigger_dimensions := ["Qualidade do sono e disposição".data,
                           "Ânimo e motivação".data] }

/-! ## Helper lemmas -/

theorem containsSub_nil_left (s : List Char) : containsSub [] s = true := by
  cases s <;> simp [containsSub, startsWith]

theorem trim_nil : trim [] = [] := rfl

/-! ## C2 — crisis snapshot round trip -/

/-- C2: entering EMERGENCY snapshots the current (state, question_index)
pair into the `pre_crisis_*` fields, and resumption restores exactly
that pair and clears both fields; if no snapshot exists at resumption,
the session goes to WELCOME with cursor 0. -/
theorem c2_crisis_snapshot_roundtrip :
    (∀ (sess : Session) (t : Option (List Char)) (sc : ℚ),
      (enterCrisisMode sess t sc).state = .EMERGENCY ∧
      (enterCrisisMode sess t sc).pre_crisis_state = some sess.state ∧
      (enterCrisisMode sess t sc).pre_crisis_question_index = some sess.current_question_index ∧
      (exitCrisisMode (enterCrisisMode sess t sc)).state = sess.state ∧
      (exitCrisisMode (enterCrisisMode sess t sc)).current_question_index = sess.current_question_index ∧
      (exitCrisisMode (enterCrisisMode sess t sc)).pre_crisis_state = none ∧
      (exitCrisisMode (enterCrisisMode sess t sc)).pre_crisis_question_index = none) ∧
    (∀ sess : Session, sess.pre_crisis_state = none →
      (exitCrisisMode sess).state = .WELCOME ∧
      (exitCrisisMode sess).current_question_index = 0) := by
  constructor
  · intro sess t sc
    refine ⟨rfl, rfl, rfl, ?_, ?_, ?_, ?_⟩ <;> simp [enterCrisisMode, exitCrisisMode]
  · intro sess h
    constructor <;> simp [exitCrisisMode, h]

/-- Witness: from (PHASE1_QUESTIONS, 7), and from a session with no
snapshot. -/
theorem c2_crisis_snapshot_roundtrip_witness :
    ((exitCrisisMode (enterCrisisMode exSessP17 (some "suicide".data) 3)).state = .PHASE1_QUESTIONS ∧
     (exitCrisisMode (enterCrisisMode exSessP17 (some "suicide".data) 3)).current_question_index = 7 ∧
     (exitCrisisMode (enterCrisisMode exSessP17 (some "suicide".data) 3)).pre_crisis_state = none ∧
     (exitCrisisMode (enterCrisisMode exSessP17 (some "suicide".data) 3)).pre_crisis_question_index = none) ∧
    ((exitCrisisMode defaultSession).state = .WELCOME ∧
     (exitCrisisMode defaultSession).current_question_index = 0) := by
  have h := c2_crisis_snapshot_roundtrip
  have h1 := h.1 exSessP17 (some "suicide".data) 3
  exact ⟨⟨h1.2.2.2.1, h1.2.2.2.2.1, h1.2.2.2.2.2.1, h1.2.2.2.2.2.2⟩,
         h.2 defaultSession rfl⟩

/-! ## C3 — detailed-check failure is fail-safe -/

/-- C3: when screening reports risk with confidence ≥ the 0.4 threshold
and the detailed-check call raises (`none`), the fallback result is an
emergency with confidence 0.7 > 0.6, so a crisis episode opens and the
session enters EMERGENCY. -/
theorem c3_detailed_failsafe (sess : Session) (screening : ScreeningResult)
    (h1 : screening.has_risk = true)
    (h2 : safetyThreshold ≤ screening.confidence) :
    (processScreeningStep sess screening none).2 = true ∧
    (processScreeningStep sess screening none).1.state = .EMERGENCY ∧
    (processScreeningStep sess screening none).1.crisis.isSome = true ∧
    (fallbackDetailed screening).is_emergency = true ∧
    (3/5 : ℚ) < (fallbackDetailed screening).confidence := by
  have hconf : (3/5 : ℚ) < (fallbackDetailed screening).confidence := by
    simp only [fallbackDetailed]
    norm_num
  have h3 : (3/5 : ℚ) < 7/10 := by norm_num
  refine ⟨?_, ?_, ?_, rfl, hconf⟩ <;>
    simp [processScreeningStep, h1, h2, llmDetailedCheck, fallbackDetailed,
      enterCrisisMode, h3]

/-- Witness: a screening hit of type suicide with confidence 0.55. -/
theorem c3_detailed_failsafe_witness :
    (processScreeningStep exSessP17 exScreening none).2 = true ∧
    (processScreeningStep exSessP17 exScreening none).1.state = .EMERGENCY ∧
    (processScreeningStep exSessP17 exScreening none).1.crisis.isSome = true ∧
    (fallbackDetailed exScreening).is_emergency = true ∧
    (3/5 : ℚ) < (fallbackDetailed exScreening).confidence :=
  c3_detailed_failsafe exSessP17 exScreening rfl
    (by norm_num [exScreening, safetyThreshold])

/-! ## C7 — resumption sentinel stripping -/

/-- C7 counterexample: a reply containing two distinct accepted sentinel
variants.  Only the first variant found is stripped (the Python loop
breaks), so resumption is signalled but the visible reply still contains
the other sentinel variant — refuting "the visible reply has the
sentinel removed" as stated. -/
theorem c7_sentinel_counterexample :
    (handleCrisisConversation exCrisis3 "oi".data (some exTwoVariantReply)).canResume = true ∧
    containsSub "[RETOMAR QUESTIONARIO]".data
      (handleCrisisConversation exCrisis3 "oi".data (some exTwoVariantReply)).response = true :=
  ⟨by decide, by decide⟩

/-- C7 amended: when the reply contains an accepted sentinel variant,
resumption is signalled and the visible reply is the reply with all
occurrences of the *first* matching variant removed and trimmed — the
fixed non-empty default acknowledgement being substituted if that leaves
the empty string — so the visible reply is always non-empty.  (Further
variants in the same reply are not stripped.) -/
theorem c7_sentinel_amended (cs : CrisisState) (userMsg reply sig : List Char)
    (h : findSignal reply = some sig) :
    (handleCrisisConversation cs userMsg (some reply)).canResume = true ∧
    (handleCrisisConversation cs userMsg (some reply)).response =
      (if trim (removeAll sig reply) = [] then defaultResumeMsg
       else trim (removeAll sig reply)) ∧
    (handleCrisisConversation cs userMsg (some reply)).response ≠ [] := by
  refine ⟨?_, ?_, ?_⟩ <;> simp only [handleCrisisConversation, h] <;>
    by_cases he : trim (removeAll sig reply) = [] <;>
      simp [he, defaultResumeMsg]

/-- Witness: a reply ending in the canonical sentinel, and the stripped
text is the non-empty remainder. -/
theorem c7_sentinel_amended_witness :
    (handleCrisisConversation exCrisis3 "oi".data
      (some "Tudo certo. [RETOMAR_QUESTIONARIO]".data)).canResume = true ∧
    (handleCrisisConversation exCrisis3 "oi".data
      (some "Tudo certo. [RETOMAR_QUESTIONARIO]".data)).response =
      (if trim (removeAll "[RETOMAR_QUESTIONARIO]".data "Tudo certo. [RETOMAR_QUESTIONARIO]".data) = []
       then defaultResumeMsg
       else trim (removeAll "[RETOMAR_QUESTIONARIO]".data "Tudo certo. [RETOMAR_QUESTIONARIO]".data)) ∧
    (handleCrisisConversation exCrisis3 "oi".data
      (some "Tudo certo. [RETOMAR_QUESTIONARIO]".data)).response ≠ [] :=
  c7_sentinel_amended exCrisis3 "oi".data "Tudo certo. [RETOMAR_QUESTIONARIO]".data
    "[RETOMAR_QUESTIONARIO]".data (by decide)

/-! ## C8 — empty message against a multiple-choice question -/

/-- C8: for every non-empty options list, the fast multiple-choice
parser applied to a whitespace-only message succeeds with the first
option: the empty normalized message is contained in every option's
normalization, and the first match wins. -/
theorem c8_empty_message_first_option (o : List Char) (rest : List (List Char))
    (msg : List Char) (h : trim msg = []) :
    parseMultipleChoice msg (o :: rest) = some o := by
  unfold parseMultipleChoice pmcDigits pmcNorm
  rw [h]
  have hemoji : (numberEmojiMap.find? fun p => decide (p.1 = ([] : List Char))) = none := by
    decide
  simp [hemoji, normalize, trim_nil, containsSub_nil_left]

/-- Witness: a space against options A/B yields A. -/
theorem c8_empty_message_first_option_witness :
    parseMultipleChoice " ".data ["A".data, "B".data] = some "A".data :=
  c8_empty_message_first_option "A".data ["B".data] " ".data (by decide)

/-! ## C4 — safety score bounds and monotonicity -/

/-- Single crisis turn: from a score in [0, 6] the score never
decreases, stays in [0, 10], and stays in [0, 6] if the turn does not
resume. -/
theorem crisis_step_score (cs : CrisisState) (m : List Char)
    (r : Option (List Char)) (h0 : 0 ≤ cs.safety_score)
    (h6 : cs.safety_score ≤ 6) :
    cs.safety_score ≤ (handleCrisisConversation cs m r).cs.safety_score ∧
    0 ≤ (handleCrisisConversation cs m r).cs.safety_score ∧
    (handleCrisisConversation cs m r).cs.safety_score ≤ 10 ∧
    (resumeFree (m, r) → (handleCrisisConversation cs m r).cs.safety_score ≤ 6) := by
  cases r with
  | none =>
    simp only [handleCrisisConversation]
    exact ⟨le_rfl, h0, le_trans h6 (by norm_num), fun _ => h6⟩
  | some reply =>
    cases hf : findSignal reply with
    | some sig =>
      simp only [handleCrisisConversation, hf]
      refine ⟨le_trans h6 (by norm_num), by norm_num, by norm_num, fun hres => ?_⟩
      exact absurd (hres reply rfl) (by simp [hf])
    | none =>
      simp only [handleCrisisConversation, hf]
      refine ⟨le_min (by linarith) h6, le_min (by linarith) (by norm_num),
        le_trans (min_le_right _ _) (by norm_num), fun _ => min_le_right _ _⟩

/-- Every run of non-resuming turns is a cons with the initial state at
the head. -/
theorem crisisRun_head_tail (cs : CrisisState) (turns : List CrisisInput) :
    crisisRun cs turns = cs :: (crisisRun cs turns).tail := by
  cases turns with
  | nil => rfl
  | cons t rest => cases t; rfl

/-- Invariant of a resume-free run: scores form a nondecreasing chain
and stay within [0, 6]. -/
theorem crisisRun_inv (turns : List CrisisInput) (cs : CrisisState)
    (h0 : 0 ≤ cs.safety_score) (h6 : cs.safety_score ≤ 6)
    (hfree : ∀ t ∈ turns, resumeFree t) :
    List.Chain' (fun a b => a.safety_score ≤ b.safety_score) (crisisRun cs turns) ∧
    (∀ st ∈ crisisRun cs turns, 0 ≤ st.safety_score ∧ st.safety_score ≤ 6) := by
  induction turns generalizing cs with
  | nil =>
    refine ⟨List.chain'_singleton cs, ?_⟩
    intro st hst
    simp only [crisisRun, List.mem_singleton] at hst
    exact hst ▸ ⟨h0, h6⟩
  | cons t rest ih =>
    obtain ⟨m, r⟩ := t
    have hstep := crisis_step_score cs m r h0 h6
    have hfreet : resumeFree (m, r) := hfree _ (List.mem_cons_self _ _)
    have h0' := hstep.2.1
    have h6' := hstep.2.2.2 hfreet
    have hrest : ∀ t ∈ rest, resumeFree t := fun t ht => hfree t (List.mem_cons_of_mem _ ht)
    obtain ⟨ihc, ihm⟩ := ih (handleCrisisConversation cs m r).cs h0' h6' hrest
    constructor
    · show List.Chain' _ (cs :: crisisRun (handleCrisisConversation cs m r).cs rest)
      rw [crisisRun_head_tail (handleCrisisConversation cs m r).cs rest]
      rw [crisisRun_head_tail (handleCrisisConversation cs m r).cs rest] at ihc
      exact List.Chain'.cons hstep.1 ihc
    · intro st hst
      rcases List.mem_cons.mp hst with hst | hst
      · exact hst ▸ ⟨h0, h6⟩
      · exact ihm st hst

/-- C4 counterexample: the detailed check may hand back any initial
safety score in 0–10; from the legal initial score 7, the first
non-resuming crisis turn caps the score at `min (7 + 0.5) 6 = 6`, a
strict decrease — refuting "no turn produces a score lower than the
previous one" for every initial score in 0–10. -/
theorem c4_safety_score_counterexample :
    (0 : ℚ) ≤ exCrisis7.safety_score ∧ exCrisis7.safety_score ≤ 10 ∧
    (handleCrisisConversation exCrisis7 "oi".data (some "estou aqui".data)).cs.safety_score = 6 ∧
    (handleCrisisConversation exCrisis7 "oi".data (some "estou aqui".data)).cs.safety_score
      < exCrisis7.safety_score := by
  refine ⟨?_, ?_, ?_, ?_⟩ <;> exact of_decide_eq_true (by with_unfolding_all rfl)

/-- C4 amended: for every initial safety score in [0, 6] — which
includes every score the crisis-entry default or a conservative detailed
check produces — a crisis episode's scores never decrease and stay in
[0, 10]: along any run of non-resuming turns the scores form a
nondecreasing chain within bounds, and from the run's final state any
further turn (resuming or not, failing or not) again yields a score
that is not lower and within [0, 10].  (For initial scores in (6, 10]
the first turn can decrease the score, as the counterexample shows.) -/
theorem c4_safety_score_amended (cs : CrisisState) (turns : List CrisisInput)
    (h0 : 0 ≤ cs.safety_score) (h6 : cs.safety_score ≤ 6)
    (hfree : ∀ t ∈ turns, resumeFree t) :
    List.Chain' (fun a b => a.safety_score ≤ b.safety_score) (crisisRun cs turns) ∧
    (∀ st ∈ crisisRun cs turns, 0 ≤ st.safety_score ∧ st.safety_score ≤ 10) ∧
    (∀ st, (crisisRun cs turns).getLast? = some st →
      ∀ (m : List Char) (r : Option (List Char)),
        st.safety_score ≤ (handleCrisisConversation st m r).cs.safety_score ∧
        0 ≤ (handleCrisisConversation st m r).cs.safety_score ∧
        (handleCrisisConversation st m r).cs.safety_score ≤ 10) := by
  obtain ⟨hchain, hmem⟩ := crisisRun_inv turns cs h0 h6 hfree
  refine ⟨hchain, ?_, ?_⟩
  · intro st hst
    obtain ⟨a0, a6⟩ := hmem st hst
    exact ⟨a0, le_trans a6 (by norm_num)⟩
  · intro st hlast m r
    have hstmem : st ∈ crisisRun cs turns := by
      have hne : crisisRun cs turns ≠ [] := by
        rw [crisisRun_head_tail cs turns]; simp
      rw [List.getLast?_eq_getLast _ hne] at hlast
      exact (Option.some_injective _ hlast).symm ▸ List.getLast_mem hne
    obtain ⟨a0, a6⟩ := hmem st hstmem
    have hstep := crisis_step_score st m r a0 a6
    exact ⟨hstep.1, hstep.2.1, hstep.2.2.1⟩

/-- Witness for the amended C4: initial score 3, a normal turn followed
by a failing turn, then one further arbitrary turn from the final
state. -/
theorem c4_safety_score_amended_witness :
    List.Chain' (fun a b => a.safety_score ≤ b.safety_score)
      (crisisRun exCrisis3 [("oi".data, some "estou aqui".data), ("x".data, none)]) ∧
    (∀ st ∈ crisisRun exCrisis3 [("oi".data, some "estou aqui".data), ("x".data, none)],
      0 ≤ st.safety_score ∧ st.safety_score ≤ 10) ∧
    (∀ st, (crisisRun exCrisis3 [("oi".data, some "estou aqui".data), ("x".data, none)]).getLast? = some st →
      ∀ (m : List Char) (r : Option (List Char)),
        st.safety_score ≤ (handleCrisisConversation st m r).cs.safety_score ∧
        0 ≤ (handleCrisisConversation st m r).cs.safety_score ∧
        (handleCrisisConversation st m r).cs.safety_score ≤ 10) := by
  refine c4_safety_score_amended exCrisis3 _ (by norm_num [exCrisis3]) (by norm_num [exCrisis3]) ?_
  intro t ht
  rcases List.mem_cons.mp ht with h | h
  · subst h
    intro reply hr
    cases hr
    decide
  · rcases List.mem_cons.mp h with h | h
    · subst h
      intro reply hr
      exact Option.noConfusion hr
    · exact absurd h (List.not_mem_nil t)

/-! ## C6 — skip refusal is governed by the `required` flag -/

/-- C6 counterexample: the question with id 4 (the unit question, in the
`required_question_ids` set `[4, 5, 7]` of `llm_parse`) but `required`
flag false *is* skipped on a skip request: the cursor advances, the
question is disregarded and `skipped_count` increments — refuting "for
every question whose id is in the fixed required set, a skip request
never advances".  The handler consults only the `required` flag; the id
set only feeds the classifier prompt. -/
theorem c6_required_set_counterexample :
    (exQMC 4 false).qid = some 4 ∧ (exQMC 4 false).required = false ∧
    (handlePhase1 [exQMC 4 false, exQMC 5 false] exSessId4 none [] "zzz".data
      (some exSkipAnalysis) none).sess.current_question_index = 1 ∧
    (handlePhase1 [exQMC 4 false, exQMC 5 false] exSessId4 none [] "zzz".data
      (some exSkipAnalysis) none).sess.skipped_questions = 1 ∧
    ((handlePhase1 [exQMC 4 false, exQMC 5 false] exSessId4 none [] "zzz".data
      (some exSkipAnalysis) none).sess.phase1_data[0]?).map (·.desconsiderada) =
      some true := by
  refine ⟨rfl, rfl, ?_, ?_, ?_⟩ <;> decide

/-- C6 amended: for every phase-1 question whose `required` *flag* is
set, a message classified as a skip request never advances the cursor,
never marks the question disregarded, never increments `skipped_count`,
and the same question is re-presented (only the per-question raw-attempt
counter changes). -/
theorem c6_required_flag_amended (Q : List Question) (sess : Session)
    (row : Option Session) (s3 : List Archive) (msg : List Char)
    (a : Analysis) (interp : Option Interp) (item : P1Item)
    (hlt : sess.current_question_index < Q.length)
    (hitem : sess.phase1_data[sess.current_question_index]? = some item)
    (hreq : item.q.required = true)
    (hfast : (phase1FastParse msg item.q).success = false)
    (hskip : a.intent = .skipRequest ∨ a.wants_to_skip = true) :
    (handlePhase1 Q sess row s3 msg (some a) interp).sess.current_question_index
      = sess.current_question_index ∧
    (handlePhase1 Q sess row s3 msg (some a) interp).sess.skipped_questions
      = sess.skipped_questions ∧
    (handlePhase1 Q sess row s3 msg (some a) interp).sess.phase1_data
      = sess.phase1_data ∧
    (handlePhase1 Q sess row s3 msg (some a) interp).sess.state = sess.state ∧
    (handlePhase1 Q sess row s3 msg (some a) interp).row = row ∧
    (handlePhase1 Q sess row s3 msg (some a) interp).reply
      = .requiredRefusal item.q := by
  have hnle : ¬ Q.length ≤ sess.current_question_index := by omega
  rcases hskip with h | h <;>
    simp [handlePhase1, hnle, hitem, hfast, llmParse, h, phase1Skip, hreq]

/-- Witness: a required unit question refuses the skip and re-presents
itself. -/
theorem c6_required_flag_amended_witness :
    (handlePhase1 [exQMC 4 true, exQMC 5 false] exSessReq none [] "zzz".data
      (some exSkipAnalysis) none).sess.current_question_index = exSessReq.current_question_index ∧
    (handlePhase1 [exQMC 4 true, exQMC 5 false] exSessReq none [] "zzz".data
      (some exSkipAnalysis) none).sess.skipped_questions = exSessReq.skipped_questions ∧
    (handlePhase1 [exQMC 4 true, exQMC 5 false] exSessReq none [] "zzz".data
      (some exSkipAnalysis) none).sess.phase1_data = exSessReq.phase1_data ∧
    (handlePhase1 [exQMC 4 true, exQMC 5 false] exSessReq none [] "zzz".data
      (some exSkipAnalysis) none).sess.state = exSessReq.state ∧
    (handlePhase1 [exQMC 4 true, exQMC 5 false] exSessReq none [] "zzz".data
      (some exSkipAnalysis) none).row = none ∧
    (handlePhase1 [exQMC 4 true, exQMC 5 false] exSessReq none [] "zzz".data
      (some exSkipAnalysis) none).reply = .requiredRefusal (exQMC 4 true) :=
  c6_required_flag_amended [exQMC 4 true, exQMC 5 false] exSessReq none []
    "zzz".data exSkipAnalysis none ⟨exQMC 4 true, none, false⟩
    (by decide) rfl rfl (by decide) (Or.inl rfl)

/-! ## C5 — optional-question skip and the skip cap -/

/-- C5 counterexample: a skip request at the cap does tear the session
down — but the `questionnaire_state` row does **not** become absent:
`reset` deletes the row and immediately re-inserts a fresh default
WELCOME row via `save_state`, so after the turn the row is present (with
default contents), refuting "the session row becomes absent". -/
theorem c5_skip_cap_counterexample :
    (handlePhase1 [exQMC 4 false, exQMC 5 false] exSessCap none [] "zzz".data
      (some exSkipAnalysis) none).reply = .skipLimitReset ∧
    (handlePhase1 [exQMC 4 false, exQMC 5 false] exSessCap none [] "zzz".data
      (some exSkipAnalysis) none).sess = defaultSession ∧
    (handlePhase1 [exQMC 4 false, exQMC 5 false] exSessCap none [] "zzz".data
      (some exSkipAnalysis) none).row = some defaultSession ∧
    (handlePhase1 [exQMC 4 false, exQMC 5 false] exSessCap none [] "zzz".data
      (some exSkipAnalysis) none).row ≠ none := by
  refine ⟨?_, ?_, ?_, ?_⟩ <;> decide

/-- C5 amended: on a skip request for an optional phase-1 question, if
`skipped_count` has already reached the cap of 5 the entire session is
torn down — reset to the default WELCOME session, persisted as a fresh
default row (not an absent row), never a partial state; below the cap,
`skipped_count` increments, the question is marked disregarded with a
null response, and the cursor advances, the full new state being saved. -/
theorem c5_skip_amended (Q : List Question) (sess : Session) (row : Option Session)
    (s3 : List Archive) (msg : List Char) (a : Analysis) (interp : Option Interp)
    (item : P1Item)
    (hlt : sess.current_question_index < Q.length)
    (hitem : sess.phase1_data[sess.current_question_index]? = some item)
    (hreq : item.q.required = false)
    (hfast : (phase1FastParse msg item.q).success = false)
    (hskip : a.intent = .skipRequest ∨ a.wants_to_skip = true) :
    (5 ≤ sess.skipped_questions →
      (handlePhase1 Q sess row s3 msg (some a) interp).sess = defaultSession ∧
      (handlePhase1 Q sess row s3 msg (some a) interp).row = some defaultSession ∧
      (handlePhase1 Q sess row s3 msg (some a) interp).reply = .skipLimitReset) ∧
    (sess.skipped_questions < 5 → sess.current_question_index + 1 < Q.length →
      (handlePhase1 Q sess row s3 msg (some a) interp).sess.skipped_questions
        = sess.skipped_questions + 1 ∧
      (handlePhase1 Q sess row s3 msg (some a) interp).sess.current_question_index
        = sess.current_question_index + 1 ∧
      (handlePhase1 Q sess row s3 msg (some a) interp).sess.phase1_data[sess.current_question_index]?
        = some { item with response := none, desconsiderada := true } ∧
      (handlePhase1 Q sess row s3 msg (some a) interp).row
        = some (handlePhase1 Q sess row s3 msg (some a) interp).sess) := by
  have hnle : ¬ Q.length ≤ sess.current_question_index := by omega
  have hidx : sess.current_question_index < sess.phase1_data.length := by
    by_contra hc
    rw [List.getElem?_eq_none (by omega)] at hitem
    exact Option.noConfusion hitem
  have hred : handlePhase1 Q sess row s3 msg (some a) interp
      = phase1Skip Q { sess with attempt_counts := setCount sess.attempt_counts (AKey.raw (item.q.qid.getD sess.current_question_index)) (lookupCount sess.attempt_counts (AKey.raw (item.q.qid.getD sess.current_question_index)) + 1) }
        row s3 item sess.current_question_index := by
    rcases hskip with h | h <;>
    · simp only [handlePhase1, List.get?_eq_getElem?, hitem, hfast, llmParse, h,
        Bool.false_eq_true, if_false]
      simp [hnle]
  rw [hred]
  constructor
  · intro hcap
    refine ⟨?_, ?_, ?_⟩ <;> simp [phase1Skip, hreq, hcap]
  · intro hlt5 hlt1
    have hncap : ¬ 5 ≤ sess.skipped_questions := by omega
    have hnle1 : ¬ Q.length ≤ sess.current_question_index + 1 := by omega
    have hget : ∀ (l : List P1Item),
        ((sess.phase1_data.set sess.current_question_index
            { item with response := none, desconsiderada := true }) ++ l)[sess.current_question_index]?
          = some { item with response := none, desconsiderada := true } := by
      intro l
      rw [List.getElem?_append, if_pos (by simpa using hidx),
        List.getElem?_set_eq_of_lt _ hidx]
    simp only [phase1Skip, hreq, Bool.false_eq_true, if_false, hncap, hnle1]
    split
    · split
      · exact ⟨rfl, rfl, hget _, trivial⟩
      · exact ⟨rfl, rfl, List.getElem?_set_eq_of_lt _ hidx, trivial⟩
    · exact ⟨rfl, rfl, List.getElem?_set_eq_of_lt _ hidx, trivial⟩

/-- Witness: the teardown at the cap, and a normal skip below it. -/
theorem c5_skip_amended_witness :
    ((handlePhase1 [exQMC 4 false, exQMC 5 false] exSessCap none [] "zzz".data
        (some exSkipAnalysis) none).sess = defaultSession ∧
     (handlePhase1 [exQMC 4 false, exQMC 5 false] exSessCap none [] "zzz".data
        (some exSkipAnalysis) none).row = some defaultSession ∧
     (handlePhase1 [exQMC 4 false, exQMC 5 false] exSessCap none [] "zzz".data
        (some exSkipAnalysis) none).reply = .skipLimitReset) ∧
    ((handlePhase1 [exQMC 9 false, exQMC 5 false] exSessFresh none [] "zzz".data
        (some exSkipAnalysis) none).sess.skipped_questions = exSessFresh.skipped_questions + 1 ∧
     (handlePhase1 [exQMC 9 false, exQMC 5 false] exSessFresh none [] "zzz".data
        (some exSkipAnalysis) none).sess.current_question_index = exSessFresh.current_question_index + 1 ∧
     (handlePhase1 [exQMC 9 false, exQMC 5 false] exSessFresh none [] "zzz".data
        (some exSkipAnalysis) none).sess.phase1_data[exSessFresh.current_question_index]?
        = some { (⟨exQMC 9 false, none, false⟩ : P1Item) with
                 response := none, desconsiderada := true } ∧
     (handlePhase1 [exQMC 9 false, exQMC 5 false] exSessFresh none [] "zzz".data
        (some exSkipAnalysis) none).row
        = some (handlePhase1 [exQMC 9 false, exQMC 5 false] exSessFresh none [] "zzz".data
            (some exSkipAnalysis) none).sess) :=
  ⟨(c5_skip_amended [exQMC 4 false, exQMC 5 false] exSessCap none [] "zzz".data
      exSkipAnalysis none ⟨exQMC 4 false, none, false⟩
      (by decide) rfl rfl (by decide) (Or.inl rfl)).1 (by decide),
   (c5_skip_amended [exQMC 9 false, exQMC 5 false] exSessFresh none [] "zzz".data
      exSkipAnalysis none ⟨exQMC 9 false, none, false⟩
      (by decide) rfl rfl (by decide) (Or.inl rfl)).2 (by decide) (by decide)⟩

/-! ## C9 — recorded values are re-validated -/

/-- C9 counterexample: the interpretation fallback may return the JSON
number 4.9 for a Likert question with confidence 0.9; the re-validation
computes `int(4.9) = 4`, which is within 1–5, so the value is accepted —
and the *recorded* response is 4.9, not an integer (its denominator is
10), refuting "every recorded Likert response is an integer between 1
and 5". -/
theorem c9_likert_float_counterexample :
    ((handlePhase1 exQListLikert exSessLikert none [] "zzz".data
        (some exAnswerAnalysis)
        (some ⟨.num (49/10), 9/10⟩)).sess.phase1_data[0]?).map (·.response)
      = some (some (.num (49/10))) ∧
    (49/10 : ℚ).den = 10 := by
  constructor <;> exact of_decide_eq_true (by with_unfolding_all rfl)

/-- C9 amended: the success blocks of the phase-1 and follow-up handlers
either reject the parsed value with a re-prompt and no state change, or
record it — and a recorded multiple-choice value is exactly one of the
question's option strings, while a recorded Likert value is one whose
`int()` truncation lies in 1–5 (fast-path values are integers 1–5, but a
fallback value may itself be fractional or a numeric string).  A
phase-1 value recorded on the last question survives into the phase-1
archive written by the assessment. -/
theorem c9_recorded_values_amended :
    (∀ (Q : List Question) (sessA : Session) (row : Option Session)
       (s3 : List Archive) (item : P1Item) (idx : Nat) (kid : ℤ) (v : Value),
      idx < sessA.phase1_data.length →
      (((phase1Success Q sessA row s3 item idx kid v).sess = sessA ∧
        (phase1Success Q sessA row s3 item idx kid v).row = row ∧
        ((phase1Success Q sessA row s3 item idx kid v).reply = .invalidOption item.q ∨
         (phase1Success Q sessA row s3 item idx kid v).reply = .invalidLikert item.q)) ∨
       ((item.q.qtype = "multiple choice".data → valueInOptions v item.q.options = true) ∧
        (item.q.qtype = "likert".data → ∃ n, pyInt v = some n ∧ 1 ≤ n ∧ n ≤ 5) ∧
        ((phase1Success Q sessA row s3 item idx kid v).sess.phase1_data[idx]?
           = some { item with response := some v, desconsiderada := false } ∨
         (∃ rest, (phase1Success Q sessA row s3 item idx kid v).s3
             = s3 ++ [.phase1Arc rest] ∧
           rest[idx]? = some { item with response := some v, desconsiderada := false }))))) ∧
    (∀ (sess : Session) (row : Option Session) (s3 : List Archive)
       (fq : FQuestion) (clarKey : AKey) (v : Value),
      ((followupSuccess sess row s3 fq clarKey v).sess = sess ∧
       (followupSuccess sess row s3 fq clarKey v).row = row ∧
       (followupSuccess sess row s3 fq clarKey v).reply = .fInvalid fq) ∨
      (valueInOptions v fq.options = true ∧
       (followupSuccess sess row s3 fq clarKey v).sess.followup_data.aprofundamento
         = sess.followup_data.aprofundamento ++ [⟨fq, v⟩])) := by
  constructor
  · intro Q sessA row s3 item idx kid v hidx
    have hset : (sessA.phase1_data.set idx
        { item with response := some v, desconsiderada := false })[idx]?
        = some { item with response := some v, desconsiderada := false } :=
      List.getElem?_set_eq_of_lt _ hidx
    by_cases hmc : item.q.qtype = "multiple choice".data ∧ valueInOptions v item.q.options = false
    · left
      simp only [phase1Success, if_pos hmc]
      exact ⟨trivial, trivial, Or.inl trivial⟩
    · by_cases hlk : item.q.qtype = "likert".data ∧ likertInvalid v = true
      · left
        simp only [phase1Success, if_neg hmc, if_pos hlk]
        exact ⟨trivial, trivial, Or.inr trivial⟩
      · right
        refine ⟨?_, ?_, ?_⟩
        · intro hq
          cases hval : valueInOptions v item.q.options
          · exact absurd ⟨hq, hval⟩ hmc
          · rfl
        · intro hq
          have hlkf : likertInvalid v = false := by
            cases hval : likertInvalid v
            · rfl
            · exact absurd ⟨hq, hval⟩ hlk
          unfold likertInvalid at hlkf
          cases hpy : pyInt v with
          | none => rw [hpy] at hlkf; exact Bool.noConfusion hlkf
          | some n =>
            rw [hpy] at hlkf
            have hrange := of_decide_eq_false hlkf
            exact ⟨n, rfl, by omega, by omega⟩
        · simp only [phase1Success, if_neg hmc, if_neg hlk]
          by_cases hlen : Q.length ≤ idx + 1
          · simp only [if_pos hlen, doAssessmentStep]
            split
            · exact Or.inl hset
            · exact Or.inr ⟨_, rfl, hset⟩
          · simp only [if_neg hlen]
            cases hq : Q.get? (idx + 1) with
            | some nq =>
              simp only [hq]
              refine Or.inl ?_
              rw [List.getElem?_append, if_pos (by simpa using hidx)]
              exact hset
            | none =>
              simp only [hq]
              exact Or.inl hset
  · intro sess row s3 fq clarKey v
    by_cases hval : valueInOptions v fq.options = false
    · left
      simp only [followupSuccess, if_pos hval]
      exact ⟨trivial, trivial, trivial⟩
    · right
      have hv : valueInOptions v fq.options = true := by
        cases h : valueInOptions v fq.options
        · exact absurd h hval
        · rfl
      refine ⟨hv, ?_⟩
      simp only [followupSuccess, if_neg hval]
      split <;> rfl

/-- Witness: a fast-path Likert 3 on the first of two questions, and the
follow-up option "Sim". -/
theorem c9_recorded_values_amended_witness :
    (((phase1Success exQListLikert exSessLikert none [] ⟨exQLikert, none, false⟩ 0 10
        (.num 3)).sess = exSessLikert ∧
      (phase1Success exQListLikert exSessLikert none [] ⟨exQLikert, none, false⟩ 0 10
        (.num 3)).row = none ∧
      ((phase1Success exQListLikert exSessLikert none [] ⟨exQLikert, none, false⟩ 0 10
        (.num 3)).reply = .invalidOption exQLikert ∨
       (phase1Success exQListLikert exSessLikert none [] ⟨exQLikert, none, false⟩ 0 10
        (.num 3)).reply = .invalidLikert exQLikert)) ∨
     ((exQLikert.qtype = "multiple choice".data →
        valueInOptions (.num 3) exQLikert.options = true) ∧
      (exQLikert.qtype = "likert".data →
        ∃ n, pyInt (.num 3) = some n ∧ 1 ≤ n ∧ n ≤ 5) ∧
      ((phase1Success exQListLikert exSessLikert none [] ⟨exQLikert, none, false⟩ 0 10
          (.num 3)).sess.phase1_data[0]?
         = some { (⟨exQLikert, none, false⟩ : P1Item) with
                  response := some (.num 3), desconsiderada := false } ∨
       (∃ rest, (phase1Success exQListLikert exSessLikert none [] ⟨exQLikert, none, false⟩ 0 10
            (.num 3)).s3 = [] ++ [.phase1Arc rest] ∧
         rest[0]? = some { (⟨exQLikert, none, false⟩ : P1Item) with
                           response := some (.num 3), desconsiderada := false })))) ∧
    (((followupSuccess defaultSession none [] ⟨"A1".data, "t".data, simNaoOptions⟩
        (.fclar "A1".data) (.str "Sim".data)).sess = defaultSession ∧
      (followupSuccess defaultSession none [] ⟨"A1".data, "t".data, simNaoOptions⟩
        (.fclar "A1".data) (.str "Sim".data)).row = none ∧
      (followupSuccess defaultSession none [] ⟨"A1".data, "t".data, simNaoOptions⟩
        (.fclar "A1".data) (.str "Sim".data)).reply
        = .fInvalid ⟨"A1".data, "t".data, simNaoOptions⟩) ∨
     (valueInOptions (.str "Sim".data) simNaoOptions = true ∧
      (followupSuccess defaultSession none [] ⟨"A1".data, "t".data, simNaoOptions⟩
        (.fclar "A1".data) (.str "Sim".data)).sess.followup_data.aprofundamento
        = defaultSession.followup_data.aprofundamento
            ++ [⟨⟨"A1".data, "t".data, simNaoOptions⟩, .str "Sim".data⟩])) :=
  ⟨c9_recorded_values_amended.1 exQListLikert exSessLikert none []
      ⟨exQLikert, none, false⟩ 0 10 (.num 3) (by decide),
   c9_recorded_values_amended.2 defaultSession none []
      ⟨"A1".data, "t".data, simNaoOptions⟩ (.fclar "A1".data) (.str "Sim".data)⟩

/-! ## C10 — origin free-text sub-question -/

/-- Recording into the `origem_riscos` dict (register the key on first
sight, then append) extends exactly the looked-up list for that key. -/
theorem lookupOrigem_update (om : List (List Char × List ORecord))
    (dim : List Char) (x : ORecord) :
    ((((if om.any fun p => decide (p.1 = dim) then om else om ++ [(dim, [])]).map
        fun p => if p.1 = dim then (p.1, p.2 ++ [x]) else p).find?
          fun p => decide (p.1 = dim)).map (·.2)).getD []
      = (((om.find? fun p => decide (p.1 = dim)).map (·.2)).getD []) ++ [x] := by
  by_cases hany : (om.any fun p => decide (p.1 = dim)) = true
  · rw [if_pos hany]
    induction om with
    | nil => simp at hany
    | cons p t ih =>
      by_cases hp : p.1 = dim
      · simp [List.find?_cons, hp]
      · have hany' : (t.any fun p => decide (p.1 = dim)) = true := by
          simp only [List.any_cons, Bool.or_eq_true] at hany
          rcases hany with h | h
          · exact absurd (of_decide_eq_true h) hp
          · exact h
        simpa [List.find?_cons, hp] using ih hany'
  · rw [if_neg hany]
    have hnone : ∀ (f : (List Char × List ORecord) → (List Char × List ORecord))
        (l : List (List Char × List ORecord)),
        (∀ p ∈ l, ¬ p.1 = dim) → (∀ p, ¬ p.1 = dim → f p = p) →
        ((l.map f).find? fun p => decide (p.1 = dim)) = none := by
      intro f l hl hf
      rw [List.find?_eq_none]
      intro y hy
      obtain ⟨p, hp, rfl⟩ := List.mem_map.mp hy
      rw [hf p (hl p hp)]
      simpa using hl p hp
    have hall : ∀ p ∈ om, ¬ p.1 = dim := by
      intro p hp hcontra
      exact hany (List.any_eq_true.mpr ⟨p, hp, by simpa using hcontra⟩)
    have homnone : (om.find? fun p => decide (p.1 = dim)) = none := by
      rw [List.find?_eq_none]
      intro p hp
      simpa using hall p hp
    rw [List.map_append, List.find?_append,
      hnone _ om hall (fun p hp => by simp [hp]), homnone]
    simp

/-- C10: for the free-text origin sub-question (odd `question_index`
within range), every inbound message — empty, skip-like or otherwise —
is recorded verbatim truncated to 500 characters under the active
dimension and the cursor advances (the phase completing and the session
resetting when this was the last sub-question, with the data archived);
no parse failure, skip budget, clarification budget or attempt budget
applies, and the interpretation oracles are never consulted. -/
theorem c10_origin_freetext (sess : Session) (row : Option Session)
    (s3 : List Archive) (msg : List Char)
    (analysis analysis' : Option Analysis) (interp interp' : Option Interp)
    (hodd : sess.current_question_index % 2 = 1)
    (hdim : sess.current_question_index / 2 < sess.trigger_dimensions.length) :
    handleOrigin sess row s3 msg analysis interp
      = handleOrigin sess row s3 msg analysis' interp' ∧
    (∃ oq, originQuestions.get? 1 = some oq ∧
      (((handleOrigin sess row s3 msg analysis interp).sess.current_question_index
          = sess.current_question_index + 1 ∧
        (handleOrigin sess row s3 msg analysis interp).sess.attempt_counts
          = sess.attempt_counts ∧
        (handleOrigin sess row s3 msg analysis interp).sess.skipped_questions
          = sess.skipped_questions ∧
        lookupOrigem (handleOrigin sess row s3 msg analysis interp).sess.followup_data
            ((sess.trigger_dimensions.get? (sess.current_question_index / 2)).getD [])
          = lookupOrigem sess.followup_data
              ((sess.trigger_dimensions.get? (sess.current_question_index / 2)).getD [])
            ++ [⟨oq, .str (msg.take 500)⟩]) ∨
       ((handleOrigin sess row s3 msg analysis interp).sess = defaultSession ∧
        ∃ fd, (handleOrigin sess row s3 msg analysis interp).s3
            = s3 ++ [.followupsArc fd] ∧
          lookupOrigem fd
              ((sess.trigger_dimensions.get? (sess.current_question_index / 2)).getD [])
            = lookupOrigem sess.followup_data
                ((sess.trigger_dimensions.get? (sess.current_question_index / 2)).getD [])
              ++ [⟨oq, .str (msg.take 500)⟩]))) := by
  have hnle : ¬ sess.trigger_dimensions.length ≤ sess.current_question_index / 2 :=
    not_le.mpr hdim
  have hone : ¬ (1 : Nat) = 0 := one_ne_zero
  constructor
  · simp [handleOrigin, hodd, hnle]
  · refine ⟨_, rfl, ?_⟩
    simp only [handleOrigin, hodd, if_neg hnle, originQuestions]
    simp only [List.get?, hone, if_false, originRecordAdvance, lookupOrigem]
    split
    · exact Or.inr ⟨rfl, _, rfl, lookupOrigem_update _ _ _⟩
    · exact Or.inl ⟨rfl, rfl, rfl, lookupOrigem_update _ _ _⟩

/-- Witness: an empty message at the free-text sub-question of the first
of two triggered dimensions is recorded and the cursor advances. -/
theorem c10_origin_freetext_witness :
    handleOrigin exSessOrigin none [] [] (some exSkipAnalysis) none
      = handleOrigin exSessOrigin none [] [] (some exAnswerAnalysis) (some ⟨.num 3, 1⟩) ∧
    (∃ oq, originQuestions.get? 1 = some oq ∧
      (((handleOrigin exSessOrigin none [] [] (some exSkipAnalysis) none).sess.current_question_index
          = exSessOrigin.current_question_index + 1 ∧
        (handleOrigin exSessOrigin none [] [] (some exSkipAnalysis) none).sess.attempt_counts
          = exSessOrigin.attempt_counts ∧
        (handleOrigin exSessOrigin none [] [] (some exSkipAnalysis) none).sess.skipped_questions
          = exSessOrigin.skipped_questions ∧
        lookupOrigem (handleOrigin exSessOrigin none [] [] (some exSkipAnalysis) none).sess.followup_data
            ((exSessOrigin.trigger_dimensions.get? (exSessOrigin.current_question_index / 2)).getD [])
          = lookupOrigem exSessOrigin.followup_data
              ((exSessOrigin.trigger_dimensions.get? (exSessOrigin.current_question_index / 2)).getD [])
            ++ [⟨oq, .str (([] : List Char).take 500)⟩]) ∨
       ((handleOrigin exSessOrigin none [] [] (some exSkipAnalysis) none).sess = defaultSession ∧
        ∃ fd, (handleOrigin exSessOrigin none [] [] (some exSkipAnalysis) none).s3
            = [] ++ [.followupsArc fd] ∧
          lookupOrigem fd
              ((exSessOrigin.trigger_dimensions.get? (exSessOrigin.current_question_index / 2)).getD [])
            = lookupOrigem exSessOrigin.followup_data
                ((exSessOrigin.trigger_dimensions.get? (exSessOrigin.current_question_index / 2)).getD [])
              ++ [⟨oq, .str (([] : List Char).take 500)⟩]))) :=
  c10_origin_freetext exSessOrigin none [] [] (some exSkipAnalysis)
    (some exAnswerAnalysis) none (some ⟨.num 3, 1⟩) (by decide) (by decide)


/-! ## C1 — dimension triggers -/

theorem dimScoresSpec_cons (it : P1Item) (rest : List P1Item) (d : List Char) :
    dimScoresSpec (it :: rest) d
      = (if p1ValidDim it = some d then (p1Score it).toList else [])
          ++ dimScoresSpec rest d := by
  unfold dimScoresSpec
  rw [List.filterMap_cons]
  by_cases h : p1ValidDim it = some d
  · cases hsc : p1Score it <;> simp [h, hsc]
  · simp [h]


theorem firstSeenFrom_cons_none {it : P1Item} {rest : List P1Item}
    {seen : List (List Char)} (hv : p1ValidDim it = none) :
    firstSeenFrom seen (it :: rest) = firstSeenFrom seen rest := by
  have hstep : firstSeenFrom seen (it :: rest)
      = match p1ValidDim it with
        | none => firstSeenFrom seen rest
        | some d => if d ∈ seen then firstSeenFrom seen rest
                    else d :: firstSeenFrom (d :: seen) rest := rfl
  rw [hstep, hv]

theorem firstSeenFrom_cons_mem {it : P1Item} {rest : List P1Item}
    {seen : List (List Char)} {dim : List Char}
    (hv : p1ValidDim it = some dim) (hmem : dim ∈ seen) :
    firstSeenFrom seen (it :: rest) = firstSeenFrom seen rest := by
  have hstep : firstSeenFrom seen (it :: rest)
      = match p1ValidDim it with
        | none => firstSeenFrom seen rest
        | some d => if d ∈ seen then firstSeenFrom seen rest
                    else d :: firstSeenFrom (d :: seen) rest := rfl
  rw [hstep, hv]
  exact if_pos hmem

theorem firstSeenFrom_cons_not_mem {it : P1Item} {rest : List P1Item}
    {seen : List (List Char)} {dim : List Char}
    (hv : p1ValidDim it = some dim) (hmem : dim ∉ seen) :
    firstSeenFrom seen (it :: rest) = dim :: firstSeenFrom (dim :: seen) rest := by
  have hstep : firstSeenFrom seen (it :: rest)
      = match p1ValidDim it with
        | none => firstSeenFrom seen rest
        | some d => if d ∈ seen then firstSeenFrom seen rest
                    else d :: firstSeenFrom (d :: seen) rest := rfl
  rw [hstep, hv]
  exact if_neg hmem

theorem mem_firstSeenFrom {seen : List (List Char)} {data : List P1Item}
    {d : List Char} (h : d ∈ firstSeenFrom seen data) : d ∉ seen := by
  induction data generalizing seen with
  | nil => simp [firstSeenFrom] at h
  | cons it rest ih =>
    cases hv : p1ValidDim it with
    | none =>
      rw [firstSeenFrom_cons_none hv] at h
      exact ih h
    | some dim =>
      by_cases hmem : dim ∈ seen
      · rw [firstSeenFrom_cons_mem hv hmem] at h
        exact ih h
      · rw [firstSeenFrom_cons_not_mem hv hmem] at h
        rcases List.mem_cons.mp h with rfl | h
        · exact hmem
        · intro hseen
          exact ih h (List.mem_cons_of_mem _ hseen)

theorem firstSeenFrom_congr {s₁ s₂ : List (List Char)} (data : List P1Item)
    (h : ∀ x, x ∈ s₁ ↔ x ∈ s₂) :
    firstSeenFrom s₁ data = firstSeenFrom s₂ data := by
  induction data generalizing s₁ s₂ with
  | nil => rfl
  | cons it rest ih =>
    cases hv : p1ValidDim it with
    | none =>
      rw [firstSeenFrom_cons_none hv, firstSeenFrom_cons_none hv]
      exact ih h
    | some dim =>
      by_cases hmem : dim ∈ s₁
      · rw [firstSeenFrom_cons_mem hv hmem,
          firstSeenFrom_cons_mem hv ((h dim).mp hmem)]
        exact ih h
      · rw [firstSeenFrom_cons_not_mem hv hmem,
          firstSeenFrom_cons_not_mem hv (fun hc => hmem ((h dim).mpr hc))]
        rw [@ih (dim :: s₁) (dim :: s₂) (fun x => by simp [List.mem_cons, h x])]

theorem dimensionScores_go (data : List P1Item) :
    ∀ acc : List (List Char × List ℚ),
    data.foldl assessAdd acc
      = acc.map (fun p => (p.1, p.2 ++ dimScoresSpec data p.1))
        ++ (firstSeenFrom (acc.map (·.1)) data).map
             (fun d => (d, dimScoresSpec data d)) := by
  induction data with
  | nil =>
    intro acc
    simp [dimScoresSpec, firstSeenFrom]
  | cons it rest ih =>
    intro acc
    rw [List.foldl_cons]
    cases hv : p1ValidDim it with
    | none =>
      have hadd : assessAdd acc it = acc := by
        unfold assessAdd
        rw [hv]
      have hsc : ∀ d, dimScoresSpec (it :: rest) d = dimScoresSpec rest d := by
        intro d
        rw [dimScoresSpec_cons]
        simp [hv]
      have hfs : firstSeenFrom (acc.map (·.1)) (it :: rest)
          = firstSeenFrom (acc.map (·.1)) rest := firstSeenFrom_cons_none hv
      rw [hadd, hfs]
      simp only [hsc]
      exact ih acc
    | some dim =>
      have hscd : dimScoresSpec (it :: rest) dim
          = (p1Score it).toList ++ dimScoresSpec rest dim := by
        rw [dimScoresSpec_cons]
        simp [hv]
      have hscne : ∀ d, d ≠ dim → dimScoresSpec (it :: rest) d = dimScoresSpec rest d := by
        intro d hd
        rw [dimScoresSpec_cons]
        have hne : ¬ p1ValidDim it = some d := by
          rw [hv]
          intro hcon
          exact hd (Option.some.inj hcon).symm
        simp [hne]
      by_cases hany : (acc.any fun p => decide (p.1 = dim)) = true
      · have hadd : assessAdd acc it
            = acc.map (fun p => if p.1 = dim then (p.1, p.2 ++ (p1Score it).toList) else p) := by
          unfold assessAdd
          rw [hv]
          simp only [hany, if_true]
          cases hsc : p1Score it
          · simp
          · simp
        have hmemk : dim ∈ acc.map (·.1) := by
          obtain ⟨p, hp, hpd⟩ := List.any_eq_true.mp hany
          exact List.mem_map.mpr ⟨p, hp, (of_decide_eq_true hpd)⟩
        have hfs : firstSeenFrom (acc.map (·.1)) (it :: rest)
            = firstSeenFrom (acc.map (·.1)) rest := firstSeenFrom_cons_mem hv hmemk
        rw [hadd, ih]
        have hkeys : ((acc.map fun p => if p.1 = dim then (p.1, p.2 ++ (p1Score it).toList) else p).map (·.1))
            = acc.map (·.1) := by
          rw [List.map_map]
          apply List.map_congr_left
          intro p _
          by_cases hp : p.1 = dim <;> simp [hp]
        rw [hkeys, hfs]
        congr 1
        · rw [List.map_map]
          apply List.map_congr_left
          intro p _
          by_cases hp : p.1 = dim
          · simp only [Function.comp_apply]
            rw [if_pos hp]
            dsimp only
            rw [hp, hscd, ← List.append_assoc]
          · simp only [Function.comp_apply]
            rw [if_neg hp]
            rw [hscne p.1 hp]
        · apply List.map_congr_left
          intro d hd
          have hdne : d ≠ dim := by
            intro hcon
            exact (mem_firstSeenFrom hd) (hcon ▸ hmemk)
          rw [hscne d hdne]
      · have hall : ∀ p ∈ acc, ¬ p.1 = dim := by
          intro p hp hcon
          exact hany (List.any_eq_true.mpr ⟨p, hp, decide_eq_true hcon⟩)
        have hadd : assessAdd acc it = acc ++ [(dim, (p1Score it).toList)] := by
          unfold assessAdd
          rw [hv]
          simp only [hany, if_false]
          have hmap : ∀ (l : List (List Char × List ℚ)), (∀ p ∈ l, ¬ p.1 = dim) →
              ∀ v, (l ++ [(dim, [])]).map
                  (fun (p : List Char × List ℚ) => if p.1 = dim then (p.1, p.2 ++ v) else p)
                = l ++ [(dim, v)] := by
            intro l hl v
            rw [List.map_append]
            congr 1
            · have hid : ∀ p ∈ l,
                  (if p.1 = dim then (p.1, p.2 ++ v) else p) = p := by
                intro p hp
                rw [if_neg (hl p hp)]
              rw [List.map_congr_left hid]
              simp
            · simp
          cases hsc : p1Score it with
          | none => simp [hsc]
          | some v => simpa [hsc] using hmap acc hall [v]
        have hnotk : dim ∉ acc.map (·.1) := by
          intro hcon
          obtain ⟨p, hp, hpd⟩ := List.mem_map.mp hcon
          exact hall p hp hpd
        have hfs : firstSeenFrom (acc.map (·.1)) (it :: rest)
            = dim :: firstSeenFrom (dim :: acc.map (·.1)) rest :=
          firstSeenFrom_cons_not_mem hv hnotk
        rw [hadd, ih, hfs]
        have hkeys : ((acc ++ [(dim, (p1Score it).toList)]).map (·.1))
            = acc.map (·.1) ++ [dim] := by
          simp
        rw [hkeys]
        rw [firstSeenFrom_congr rest
          (fun x => by simp [List.mem_append, List.mem_cons, or_comm] : ∀ x, x ∈ acc.map (·.1) ++ [dim] ↔ x ∈ dim :: acc.map (·.1))]
        rw [List.map_append]
        rw [List.append_assoc]
        congr 1
        · apply List.map_congr_left
          intro p hp
          rw [hscne p.1 (hall p hp)]
        · simp only [List.map_cons, List.map_nil, List.singleton_append]
          congr 1
          · rw [hscd]
          · apply List.map_congr_left
            intro d hd
            have hdne : d ≠ dim := by
              intro hcon
              exact (mem_firstSeenFrom hd) (by rw [hcon]; exact List.mem_cons_self _ _)
            rw [hscne d hdne]

theorem dimensionScores_eq (data : List P1Item) :
    dimensionScores data
      = (firstSeenFrom [] data).map (fun d => (d, dimScoresSpec data d)) := by
  have h := dimensionScores_go data []
  simpa [dimensionScores] using h

theorem triggers_foldl_select (l : List (List Char × List ℚ)) :
    ∀ acc : List (List Char),
    l.foldl (fun acc p =>
        if p.2 ≠ [] ∧ normalize p.1 ∈ targetNorms ∧ avgQ p.2 ≤ 3 then acc ++ [p.1] else acc) acc
      = acc ++ ((l.filter fun p =>
          decide (p.2 ≠ [] ∧ normalize p.1 ∈ targetNorms ∧ avgQ p.2 ≤ 3)).map (·.1)) := by
  induction l with
  | nil => intro acc; simp
  | cons p t ih =>
    intro acc
    rw [List.foldl_cons]
    by_cases hp : p.2 ≠ [] ∧ normalize p.1 ∈ targetNorms ∧ avgQ p.2 ≤ 3
    · rw [if_pos hp, ih, List.filter_cons_of_pos (by simpa using hp)]
      simp
    · rw [if_neg hp, ih, List.filter_cons_of_neg (by simpa using hp)]

/-- C1 counterexample: phase-1 Likert answers tagged d1 (responses 2, 3;
average 2.5 ≤ 3.0) and d2 (responses 4, 5) select *no* trigger
dimension — not exactly d1 as claimed — because `do_assessment` only
considers dimensions in its fixed five-name target set, which the claim
omits. -/
theorem c1_dimension_trigger_counterexample :
    avgQ (dimScoresSpec exC1Data "d1".data) ≤ 3 ∧
    doAssessmentTriggers exC1Data = [] ∧
    doAssessmentTriggers exC1Data ≠ ["d1".data] := by
  refine ⟨of_decide_eq_true (by with_unfolding_all rfl), by decide, by decide⟩

/-- C1 amended: the assessment selects exactly those dimensions — in
first-observed order over the valid (Likert, non-disregarded, answered)
items — whose normalized name is one of the five fixed target
dimensions, that received at least one convertible score, and whose
average is ≤ 3.0; on the claim's example re-tagged with real target
dimensions, exactly the low-scoring one is selected. -/
theorem c1_assessment_amended :
    (∀ data : List P1Item, doAssessmentTriggers data = assessSpec data) ∧
    doAssessmentTriggers exC1TargetData
      = ["Qualidade do sono e disposição".data] := by
  constructor
  · intro data
    unfold doAssessmentTriggers assessSpec
    rw [dimensionScores_eq, triggers_foldl_select, List.nil_append]
    rw [List.filter_map, List.map_map]
    simp [Function.comp_def]
  · exact of_decide_eq_true (by with_unfolding_all rfl)


end DynNR1
